import Mathlib

/-!
# Verification of the ts-gif GIF encoder/decoder core

Shallow embedding of the TypeScript sources of the `ts-gif` repository
(`src/writer.ts`, `src/reader.ts`, and the class-based writer) and proofs
about the embedded definitions.

Modelling conventions, used consistently below:

* JS `number` values that the source only ever uses as non-negative machine
  integers (byte values, cursors, codes, shifts) are modelled as `Nat`;
  the source's bit operations `&`, `|`, `<<`, `>>` become `&&&`, `|||`,
  `<<<`, `>>>` on `Nat`, which agree with JS on the value ranges involved
  (all quantities stay below 2^31).
* A `Buffer` / `Uint8Array` is modelled as a `List Nat` of its byte values.
  Out-of-range reads return `undefined` in JS; in positions where the source
  coerces the read value with a bit operation (`|`, `<<`) we use `getD _ 0`,
  matching the JS coercion `undefined -> NaN -> 0`.  In positions where the
  source compares the raw read value we model the read as an `Option Nat`.
* Output buffers are written strictly sequentially (`buf[p++] = v`) except
  for the sub-block length back-patches of the LZW encoder; we therefore
  keep the written bytes as a list in reverse order (most recent byte
  first), so that the sequential write is a cons and a back-patch is a
  `List.set` near the head.
-/

/-- Partial map from `Nat` keys to `Nat` values, modelling the JS object
`code_table : Record<number, number>` of the LZW encoder (an integer-keyed
dictionary) and the `Int32Array(4096)` table of the decoder.  Implemented
as a binary trie over the key bits (fuelled by the fixed key width) so
that concrete runs inside proofs evaluate cheaply; semantically it is a
finite partial map. -/
inductive NatMap where
  | leaf : NatMap
  | node (val : Option Nat) (ev od : NatMap) : NatMap
deriving DecidableEq

/-- Key width of the trie.  Code-table keys are at most 20 bits
(`ib_code << 8 | k` with codes below 4096 and bytes below 256); the
decoder's output positions are bounded by the `Uint8Array` length, which
JavaScript caps well below `2^53`.  64 levels cover both; the recursion
consumes one key bit per level and stops once the key is exhausted, so
small keys never walk the full depth. -/
def natMapFuel : Nat := 64

def NatMap.findAux : Nat → NatMap → Nat → Option Nat
  | _, .leaf, _ => none
  | _, .node v _ _, 0 => v
  | 0, _, _ => none
  | fuel+1, .node _ e o, k+1 =>
      if (k+1) % 2 = 0 then NatMap.findAux fuel e ((k+1)/2)
      else NatMap.findAux fuel o ((k+1)/2)

def NatMap.insertAux : Nat → NatMap → Nat → Nat → NatMap
  | _, .leaf, 0, v => .node (some v) .leaf .leaf
  | _, .node _ e o, 0, v => .node (some v) e o
  | 0, t, _, _ => t
  | fuel+1, .leaf, k+1, v =>
      if (k+1) % 2 = 0 then .node none (NatMap.insertAux fuel .leaf ((k+1)/2) v) .leaf
      else .node none .leaf (NatMap.insertAux fuel .leaf ((k+1)/2) v)
  | fuel+1, .node w e o, k+1, v =>
      if (k+1) % 2 = 0 then .node w (NatMap.insertAux fuel e ((k+1)/2) v) o
      else .node w e (NatMap.insertAux fuel o ((k+1)/2) v)

def NatMap.find (t : NatMap) (k : Nat) : Option Nat :=
  NatMap.findAux natMapFuel t k

def NatMap.insert (t : NatMap) (k v : Nat) : NatMap :=
  NatMap.insertAux natMapFuel t k v

/-- Keys below `2 ^ fuel` round-trip through the fuelled trie. -/
theorem NatMap.findAux_insertAux_self (fuel : Nat) :
    ∀ (t : NatMap) (k v : Nat), k < 2 ^ fuel →
      NatMap.findAux fuel (NatMap.insertAux fuel t k v) k = some v := by
  induction fuel with
  | zero =>
      intro t k v hk
      interval_cases k
      cases t <;> rfl
  | succ n ih =>
      intro t k v hk
      match t, k with
      | .leaf, 0 => rfl
      | .node w e o, 0 => rfl
      | .leaf, k+1 =>
          have h2 : (2:Nat) ^ (n+1) = 2 ^ n * 2 := pow_succ 2 n
          have hk2 : (k+1)/2 < 2 ^ n := by omega
          by_cases hpar : (k+1) % 2 = 0 <;>
            simp [NatMap.insertAux, NatMap.findAux, hpar, ih _ _ _ hk2]
      | .node w e o, k+1 =>
          have h2 : (2:Nat) ^ (n+1) = 2 ^ n * 2 := pow_succ 2 n
          have hk2 : (k+1)/2 < 2 ^ n := by omega
          by_cases hpar : (k+1) % 2 = 0 <;>
            simp [NatMap.insertAux, NatMap.findAux, hpar, ih _ _ _ hk2]

theorem NatMap.find_insert_self (t : NatMap) (k v : Nat) (hk : k < 2 ^ natMapFuel) :
    NatMap.find (NatMap.insert t k v) k = some v :=
  NatMap.findAux_insertAux_self natMapFuel t k v hk

/-! ## LZW encoder (`GifWriterOutputLZWCodeStream`, src/writer.ts lines 246-396)

The encoder writes bytes strictly at the cursor `p` except for the sub-block
length back-patches at `cur_subblock`.  We keep the bytes written so far in
`out`, most recent first, together with the absolute cursor `p` and the start
cursor `p0`, so that `out.length = p - p0` and the byte at absolute position
`i` (for `p0 ≤ i < p`) sits at reversed index `p - 1 - i`. -/

/-- Encoder state: the local variables of `GifWriterOutputLZWCodeStream`. -/
structure EncSt where
  out : List Nat
  p : Nat
  cur_subblock : Nat
  next_code : Nat
  cur_code_size : Nat
  cur_shift : Nat
  cur : Nat
  ib_code : Nat
  code_table : NatMap
deriving DecidableEq

/-- `buf[p++] = v` of the writer, on the reversed byte list. -/
def EncSt.push (st : EncSt) (v : Nat) : EncSt :=
  { st with out := v :: st.out, p := st.p + 1 }

/-- `buf[cur_subblock] = v`: back-patch of a sub-block length byte.
Position `cur_subblock` is at distance `p - 1 - cur_subblock` from the head
of the reversed list. -/
def EncSt.patchSubblock (st : EncSt) (v : Nat) : EncSt :=
  { st with out := st.out.set (st.p - 1 - st.cur_subblock) v }

/-- Body of `emit_bytes_to_buffer`'s `while (cur_shift >= bit_block_size)`
loop: write the low byte of `cur`, shift it out, and when a 255-byte
sub-block fills up, patch its length byte and reserve a fresh one.
The loop runs at most `cur_shift` times (each iteration removes 8 bits),
so we drive it with `cur_shift` as fuel. -/
def emitLoop : Nat → Nat → EncSt → EncSt
  | 0, _, st => st
  | fuel+1, bbs, st =>
      if bbs ≤ st.cur_shift then
        let st1 := st.push (st.cur &&& 0xFF)
        let st2 := { st1 with cur := st1.cur >>> 8, cur_shift := st1.cur_shift - 8 }
        let st3 :=
          if st2.p = st2.cur_subblock + 256 then
            let st3a := st2.patchSubblock 255
            { (st3a.push 0) with cur_subblock := st3a.p }
          else st2
        emitLoop fuel bbs st3
      else st

def emit_bytes_to_buffer (bbs : Nat) (st : EncSt) : EncSt :=
  emitLoop st.cur_shift bbs st

/-- `emit_code(c)`: append `c` at the current code size and flush bytes. -/
def emit_code (st : EncSt) (c : Nat) : EncSt :=
  emit_bytes_to_buffer 8
    { st with cur := st.cur ||| (c <<< st.cur_shift),
              cur_shift := st.cur_shift + st.cur_code_size }

/-- Body of the encoder's main `for` loop over `index_stream` (lines
324-376 of src/writer.ts), for one input symbol. -/
def encStep (min_code_size : Nat) (st : EncSt) (kraw : Nat) : EncSt :=
  let clear_code := 1 <<< min_code_size
  let code_mask := clear_code - 1
  let eoi_code := clear_code + 1
  let k := kraw &&& code_mask
  let cur_key := st.ib_code <<< 8 ||| k
  match st.code_table.find cur_key with
  | some cur_code => { st with ib_code := cur_code }
  | none =>
      -- inline version of emit_code(ib_code)
      let st1 := { st with cur := st.cur ||| (st.ib_code <<< st.cur_shift),
                           cur_shift := st.cur_shift + st.cur_code_size }
      let st2 := emitLoop st1.cur_shift 8 st1
      let st3 :=
        if st2.next_code = 4096 then
          -- Table full, need a clear.
          let stc := emit_code st2 clear_code
          { stc with next_code := eoi_code + 1,
                     cur_code_size := min_code_size + 1,
                     code_table := .leaf }
        else
          -- Table not full, insert a new entry.
          let st2a :=
            if 1 <<< st2.cur_code_size ≤ st2.next_code then
              { st2 with cur_code_size := st2.cur_code_size + 1 }
            else st2
          { st2a with code_table := st2a.code_table.insert cur_key st2a.next_code,
                      next_code := st2a.next_code + 1 }
      { st3 with ib_code := k }

/-- Final sub-block fix-up (lines 387-393): finish the sub-block chain,
writing out any unfinished length and a zero-length terminator. -/
def encFinish (st : EncSt) : EncSt :=
  if st.cur_subblock + 1 = st.p then
    st.patchSubblock 0
  else
    (st.patchSubblock (st.p - st.cur_subblock - 1)).push 0

/-- Initialisation of `GifWriterOutputLZWCodeStream` (lines 247-321): write
the `min_code_size` byte, reserve the first sub-block length byte, load the
first input index into the index buffer and emit the initial clear code. -/
def encInit (p min_code_size : Nat) (index_stream : List Nat) : EncSt :=
  let clear_code := 1 <<< min_code_size
  let code_mask := clear_code - 1
  let eoi_code := clear_code + 1
  let st0 : EncSt :=
    { out := [0, min_code_size],   -- the 0 is the reserved (not yet written) length byte
      p := p + 2, cur_subblock := p + 1,
      next_code := eoi_code + 1, cur_code_size := min_code_size + 1,
      cur_shift := 0, cur := 0,
      ib_code := (index_stream.getD 0 0) &&& code_mask,
      code_table := .leaf }
  emit_code st0 clear_code

/-- `GifWriterOutputLZWCodeStream(buf, p, min_code_size, index_stream)`:
full encoder run starting at cursor `p` with an empty tail of the output
buffer.  Returns the final state; the written bytes are `(·.out).reverse`
and the new cursor is `·.p` (the source's return value). -/
def GifWriterOutputLZWCodeStream (p min_code_size : Nat) (index_stream : List Nat) : EncSt :=
  let clear_code := 1 <<< min_code_size
  let eoi_code := clear_code + 1
  let st2 := (index_stream.drop 1).foldl (encStep min_code_size) (encInit p min_code_size index_stream)
  let st3 := emit_code st2 st2.ib_code
  let st4 := emit_code st3 eoi_code
  let st5 := emit_bytes_to_buffer 1 st4
  encFinish st5

/-- Bytes written by an encoder run, in stream order. -/
def EncSt.bytes (st : EncSt) : List Nat := st.out.reverse

/-! ## LZW decoder (`readerLZWOutputIndexStream`, src/reader.ts lines 346-493)

The decoder reads the code stream strictly sequentially (`code_stream[p++]`),
so the remaining input is kept as a plain list whose head is the byte at the
read cursor.  `subblock_size` is `Option Nat`: `none` models the JS values
`undefined` / `NaN` that arise from an out-of-range read (neither compares
equal to `0` or `1`, and decrementing leaves them `NaN`); all theorems below
only exercise runs whose reads stay in bounds.  The output `Uint8Array` of
length `output_length` is zero-initialised and written in place at indices
below `output_length` (the source bound-checks `op_end` before writing); we
represent it as a `NatMap` from positions to stored bytes and materialise
the array with `DecSt.outputList`, zero where never written, exactly the
zero-initialised `Uint8Array`. -/

/-- Decoder state: the local variables of `readerLZWOutputIndexStream`. -/
structure DecSt where
  rest : List Nat
  subblock_size : Option Nat
  next_code : Nat
  cur_code_size : Nat
  code_mask : Nat
  cur_shift : Nat
  cur : Nat
  op : Nat
  output : NatMap
  code_table : NatMap
  prev_code : Option Nat
deriving DecidableEq

/-- The decoder's output array, materialised: entry `i` is the byte stored
at position `i`, or 0 (the `Uint8Array` zero-initialisation) if position
`i` was never written. -/
def DecSt.outputList (st : DecSt) (output_length : Nat) : List Nat :=
  (List.range output_length).map (fun i => (st.output.find i).getD 0)

/-- `while (cur_shift < 16)` read loop (lines 373-386): pull in up to two
bytes, handing sub-block length bytes transparently.  Each iteration adds 8
to `cur_shift`, so two iterations always suffice. -/
def fillBits : Nat → DecSt → DecSt
  | 0, st => st
  | fuel+1, st =>
      if st.cur_shift < 16 then
        if st.subblock_size = some 0 then st   -- no more data to be read
        else
          let b := st.rest.headD 0   -- code_stream[p++] (undefined coerces to 0 under |)
          let st1 := { st with rest := st.rest.tail,
                               cur := st.cur ||| (b <<< st.cur_shift),
                               cur_shift := st.cur_shift + 8 }
          let st2 :=
            if st1.subblock_size = some 1 then
              { st1 with subblock_size := st1.rest.head?, rest := st1.rest.tail }
            else
              { st1 with subblock_size := st1.subblock_size.map (· - 1) }
          fillBits fuel st2
      else st

/-- First chase loop (lines 441-444): walk the prefix chain of `chase_code`
down to a literal, counting its length.  Entry values strictly decrease in
well-formed tables; the fuel (4096 in all uses below) bounds the walk. -/
def chaseLen : Nat → NatMap → Nat → Nat → Nat × Nat
  | 0, _, _, chase => (chase, 0)
  | fuel+1, table, clear_code, chase =>
      if clear_code < chase then
        let r := chaseLen fuel table clear_code ((table.find chase).getD 0 >>> 8)
        (r.1, r.2 + 1)
      else (chase, 0)

/-- Second chase loop (lines 464-469): write the chased entry's bytes
backwards into the output, starting just below position `b`. -/
def chaseWrite : Nat → NatMap → Nat → Nat → NatMap → NatMap
  | 0, _, _, _, output => output
  | len+1, table, chase, b, output =>
      let c := (table.find chase).getD 0
      let output := output.insert (b - 1) (c &&& 0xFF)
      chaseWrite len table (c >>> 8) (b - 1) output

/-- One iteration of the decoder's outer `while (true)` loop (lines
371-485).  Returns `Sum.inl` to continue with the new state, `Sum.inr`
when the loop breaks (end of data or EOI) or returns early (output
overrun, line 452). -/
def decStep (min_code_size : Nat) (st : DecSt) (output_length : Nat) : DecSt ⊕ DecSt :=
  let clear_code := 1 <<< min_code_size
  let eoi_code := clear_code + 1
  let st := fillBits 2 st
  if st.cur_shift < st.cur_code_size then .inr st
  else
    let code := st.cur &&& st.code_mask
    let st := { st with cur := st.cur >>> st.cur_code_size,
                        cur_shift := st.cur_shift - st.cur_code_size }
    if code = clear_code then
      .inl { st with next_code := eoi_code + 1,
                     cur_code_size := min_code_size + 1,
                     code_mask := (1 <<< (min_code_size + 1)) - 1,
                     prev_code := none }
    else if code = eoi_code then .inr st
    else
      let chase_code := if code < st.next_code then code else st.prev_code.getD 0
      let cl := chaseLen 4096 st.code_table clear_code chase_code
      let k := cl.1
      let chase_length := cl.2
      let op_end := st.op + chase_length + (if chase_code ≠ code then 1 else 0)
      if output_length < op_end then .inr st   -- stream longer than expected
      else
        let output := st.output.insert st.op (k &&& 0xFF)
        let op := st.op + 1
        let op := op + chase_length
        let b := op
        let output := if chase_code ≠ code then output.insert op (k &&& 0xFF) else output
        let op := if chase_code ≠ code then op + 1 else op
        let output := chaseWrite chase_length st.code_table chase_code b output
        let st :=
          if st.prev_code ≠ none ∧ st.next_code < 4096 then
            let st1 := { st with
              code_table := st.code_table.insert st.next_code
                ((st.prev_code.getD 0) <<< 8 ||| k),
              next_code := st.next_code + 1 }
            if st.code_mask + 1 ≤ st1.next_code ∧ st1.cur_code_size < 12 then
              { st1 with cur_code_size := st1.cur_code_size + 1,
                         code_mask := st1.code_mask <<< 1 ||| 1 }
            else st1
          else st
        .inl { st with op := op, output := output, prev_code := some code }

/-- Fuelled outer loop of the decoder. -/
def decLoop (min_code_size : Nat) : Nat → DecSt → Nat → DecSt
  | 0, st, _ => st
  | fuel+1, st, output_length =>
      match decStep min_code_size st output_length with
      | .inl st1 => decLoop min_code_size fuel st1 output_length
      | .inr st1 => st1

/-- `readerLZWOutputIndexStream(code_stream, p, output, output_length)`:
reads `min_code_size` and the first sub-block length, then runs the outer
loop.  `code_stream` here is the byte list from position `p` on; `fuel`
bounds the number of outer-loop iterations (one code each).  The returned
state's `output` is the index stream (the in-place mutated `Uint8Array`),
and `op` tells how much of it was produced. -/
def readerLZWOutputIndexStream (fuel : Nat) (code_stream : List Nat) (output_length : Nat) :
    DecSt :=
  let min_code_size := code_stream.headD 0
  let rest1 := code_stream.tail
  let st0 : DecSt :=
    { rest := rest1.tail,
      subblock_size := rest1.head?,
      next_code := (1 <<< min_code_size) + 2,
      cur_code_size := min_code_size + 1,
      code_mask := (1 <<< (min_code_size + 1)) - 1,
      cur_shift := 0, cur := 0, op := 0,
      output := .leaf,
      code_table := .leaf, prev_code := none }
  decLoop min_code_size fuel st0 output_length

/-! ## Container writer (`GifWriter`, src/writer.ts lines 4-242)

The writer owns the caller's buffer and a cursor `p`; we model the bytes it
has written (from position 0) as a reversed list, exactly as for the
encoder.  A JS `throw` aborts the current call but keeps all mutations made
so far, so every operation returns the state at the point of the throw
together with the error message (`none` when no error was thrown).
Numeric options are modelled as `Nat`; the source's `< 0` validations are
vacuous in this model and are kept as comments. -/

/-- Options of the `GifWriter` constructor. -/
structure WriterOptions where
  palette : Option (List Nat) := none
  loop : Option Nat := none
  background : Option Nat := none

/-- Options of `addFrame`.  `delay`/`disposal` default to 0 exactly as the
source defaults `undefined` to 0. -/
structure FrameOptions where
  palette : Option (List Nat) := none
  delay : Nat := 0
  disposal : Nat := 0
  transparent : Option Nat := none

/-- Mutable writer state: output bytes written so far (reversed), the
cursor `p`, and the `ended` flag. -/
structure WSt where
  out : List Nat
  p : Nat
  ended : Bool
deriving DecidableEq

def WSt.push (st : WSt) (v : Nat) : WSt :=
  { st with out := v :: st.out, p := st.p + 1 }

def WSt.pushAll (st : WSt) (vs : List Nat) : WSt :=
  vs.foldl WSt.push st

/-- Bytes written, in stream order. -/
def WSt.bytes (st : WSt) : List Nat := st.out.reverse

/-- `check_palette_and_num_colors` (lines 14-24): palette length must be a
power of two in 2..256. -/
def check_palette_and_num_colors (palette : List Nat) : Option Nat :=
  let num_colors := palette.length
  if num_colors < 2 ∨ 256 < num_colors ∨ num_colors &&& (num_colors - 1) ≠ 0 then
    none
  else some num_colors

/-- `while (n >>= 1) ++count`: number of halvings of `n` until it reaches
zero, i.e. the floor base-2 logarithm for positive `n`.  Driven by fuel
(32 bounds every 32-bit value). -/
def shiftCount : Nat → Nat → Nat
  | 0, _ => 0
  | fuel+1, n => if n / 2 = 0 then 0 else shiftCount fuel (n / 2) + 1

def shiftCount32 (n : Nat) : Nat := shiftCount 32 n

/-- Serialised RGB bytes of a palette (3 bytes per entry, R,G,B order). -/
def paletteBytes (palette : List Nat) : List Nat :=
  palette.flatMap (fun rgb => [rgb >>> 16 &&& 0xFF, rgb >>> 8 &&& 0xFF, rgb &&& 0xFF])

/-- The `GifWriter` constructor body (lines 4-109): validations, header,
Logical Screen Descriptor, Global Color Table and Netscape looping block.
Returns the state at return or at the point of the `throw`, plus the
error message if one was thrown. -/
def gifWriterInit (width height : Nat) (opts : WriterOptions) : WSt × Option String :=
  let st : WSt := { out := [], p := 0, ended := false }
  -- if (width <= 0 || height <= 0 || width > 65535 || height > 65535)
  if width = 0 ∨ height = 0 ∨ 65535 < width ∨ 65535 < height then
    (st, some "Width/Height invalid.")
  else
    -- - Header.
    let st := st.pushAll [0x47, 0x49, 0x46, 0x38, 0x39, 0x61]
    -- Handling of Global Color Table (palette) and background index.
    match opts.palette with
    | some global_palette =>
        match check_palette_and_num_colors global_palette with
        | none => (st, some "Invalid code/color length, must be power of 2 and 2 .. 256.")
        | some gp_num_colors0 =>
            let gp_num_colors_pow2 := shiftCount32 gp_num_colors0
            let gp_num_colors := 1 <<< gp_num_colors_pow2
            let gp_num_colors_pow2 := gp_num_colors_pow2 - 1
            let background := 0
            let go : Nat → WSt × Option String := fun background =>
              let st := st.pushAll
                [width &&& 0xFF, width >>> 8 &&& 0xFF,
                 height &&& 0xFF, height >>> 8 &&& 0xFF,
                 0x80 ||| gp_num_colors_pow2, background, 0]
              let st := st.pushAll (paletteBytes global_palette)
              match opts.loop with
              | none => (st, none)
              | some loop_count =>
                  if 65535 < loop_count then (st, some "Loop count invalid.")
                  else
                    let st := st.pushAll
                      [0x21, 0xFF, 0x0B,
                       0x4E, 0x45, 0x54, 0x53, 0x43, 0x41, 0x50, 0x45, 0x32, 0x2E, 0x30,
                       0x03, 0x01, loop_count &&& 0xFF, loop_count >>> 8 &&& 0xFF, 0x00]
                    (st, none)
            match opts.background with
            | none => go background
            | some bg =>
                if gp_num_colors ≤ bg then (st, some "Background index out of range.")
                else if bg = 0 then (st, some "Background index explicitly passed as 0.")
                else go bg
    | none =>
        -- no global palette: background option is never read
        let st := st.pushAll
          [width &&& 0xFF, width >>> 8 &&& 0xFF,
           height &&& 0xFF, height >>> 8 &&& 0xFF,
           0, 0, 0]
        match opts.loop with
        | none => (st, none)
        | some loop_count =>
            if 65535 < loop_count then (st, some "Loop count invalid.")
            else
              let st := st.pushAll
                [0x21, 0xFF, 0x0B,
                 0x4E, 0x45, 0x54, 0x53, 0x43, 0x41, 0x50, 0x45, 0x32, 0x2E, 0x30,
                 0x03, 0x01, loop_count &&& 0xFF, loop_count >>> 8 &&& 0xFF, 0x00]
              (st, none)

/-- The resolved frame parameters computed by `addFrame`'s validation
phase (lines 124-181). -/
structure FrameParams where
  using_local_palette : Bool
  palette : List Nat
  min_code_size : Nat
  delay : Nat
  disposal : Nat
  use_transparency : Bool
  transparent_index : Nat
deriving DecidableEq

/-- The validation phase of `addFrame` (lines 124-181), with the checks in
source order: returns the first validation error thrown, or the resolved
frame parameters.  No byte is written during this phase. -/
def addFrameValidate (global_palette : Option (List Nat))
    (x y w h : Nat) (indexed_pixels : List Nat) (opts : FrameOptions) :
    Except String FrameParams :=
  -- if (x < 0 || y < 0 || x > 65535 || y > 65535)
  if 65535 < x ∨ 65535 < y then .error "x/y invalid."
  -- if (w <= 0 || h <= 0 || w > 65535 || h > 65535)
  else if w = 0 ∨ h = 0 ∨ 65535 < w ∨ 65535 < h then .error "Width/Height invalid."
  else if indexed_pixels.length < w * h then .error "Not enough pixels for the frame size."
  else
    let using_local_palette := opts.palette.isSome
    match opts.palette.orElse (fun _ => global_palette) with
    | none => .error "Must supply either a local or global palette."
    | some palette =>
        match check_palette_and_num_colors palette with
        | none => .error "Invalid code/color length, must be power of 2 and 2 .. 256."
        | some num_colors0 =>
            let min_code_size := shiftCount32 num_colors0
            let num_colors := 1 <<< min_code_size
            let delay := opts.delay
            let disposal := opts.disposal
            if 3 < disposal then .error "Disposal out of range."
            else
              let use_transparency := opts.transparent.isSome
              let transparent_index := (opts.transparent).getD 0
              if use_transparency ∧ num_colors ≤ transparent_index then
                .error "Transparent color index."
              else
                .ok { using_local_palette := using_local_palette, palette := palette,
                      min_code_size := min_code_size, delay := delay, disposal := disposal,
                      use_transparency := use_transparency,
                      transparent_index := transparent_index }

/-- `addFrame(x, y, w, h, indexed_pixels, opts)` (lines 113-228):
un-end if necessary, validate (`addFrameValidate`), then emit the Graphics
Control Extension (only when needed), the Image Descriptor, the Local Color
Table and the LZW code stream.  `global_palette` is the constructor's
captured palette.  Returns the state at return or at the point of the
`throw`, plus the error message if one was thrown; on success the source's
return value is the final cursor `(·.p)`. -/
def addFrame (global_palette : Option (List Nat)) (st : WSt)
    (x y w h : Nat) (indexed_pixels : List Nat) (opts : FrameOptions) :
    WSt × Option String :=
  -- Un-end: rewind the cursor past the trailer byte.
  let st := if st.ended then { st with out := st.out.tail, p := st.p - 1, ended := false } else st
  match addFrameValidate global_palette x y w h indexed_pixels opts with
  | .error e => (st, some e)
  | .ok fp =>
      -- - Graphics Control Extension (only when needed)
      let st :=
        if fp.disposal ≠ 0 ∨ fp.use_transparency ∨ fp.delay ≠ 0 then
          st.pushAll
            [0x21, 0xF9, 4,
             fp.disposal <<< 2 ||| (if fp.use_transparency then 1 else 0),
             fp.delay &&& 0xFF, fp.delay >>> 8 &&& 0xFF,
             fp.transparent_index, 0]
        else st
      -- - Image Descriptor
      let st := st.pushAll
        [0x2C,
         x &&& 0xFF, x >>> 8 &&& 0xFF,
         y &&& 0xFF, y >>> 8 &&& 0xFF,
         w &&& 0xFF, w >>> 8 &&& 0xFF,
         h &&& 0xFF, h >>> 8 &&& 0xFF,
         if fp.using_local_palette then 0x80 ||| (fp.min_code_size - 1) else 0]
      -- - Local Color Table
      let st := if fp.using_local_palette then st.pushAll (paletteBytes fp.palette) else st
      -- LZW code stream; the encoder continues at the current cursor.
      let enc := GifWriterOutputLZWCodeStream st.p
        (if fp.min_code_size < 2 then 2 else fp.min_code_size) indexed_pixels
      ({ st with out := enc.out ++ st.out, p := enc.p }, none)

/-- `end()` (lines 230-236): append the trailer byte once; returns the
final length (the cursor). -/
def gifEnd (st : WSt) : WSt × Nat :=
  if st.ended = false then
    let st := { (st.push 0x3B) with ended := true }
    (st, st.p)
  else (st, st.p)

/-! ## Container parser (`Reader` constructor, src/reader.ts lines 4-175)

The parser jumps its cursor around (palette seeks, sub-block skips), so the
buffer stays a `List Nat` indexed absolutely.  Reads that the source
compares with `===`/`!==` against a byte are modelled as `Option Nat`
(`buf[i]?`); reads that the source coerces with `|`/`<<`/`>>` use
`List.getD _ _ 0`.  Each loop iteration advances the cursor by at least
one, so `buf.length + 1` fuel is always sufficient. -/

/-- Frame descriptor assembled by the parser (the object pushed at
src/reader.ts lines 149-163). -/
structure PFrame where
  x : Nat
  y : Nat
  width : Nat
  height : Nat
  has_local_palette : Bool
  palette_offset : Option Nat
  palette_size : Option Nat
  data_offset : Nat
  data_length : Nat
  transparent_index : Option Nat
  interlaced : Bool
  delay : Nat
  disposal : Nat
deriving DecidableEq

/-- The parser's loop state: collected frames, the recorded loop count and
the three Graphics Control Extension registers (`delay`,
`transparent_index`, `disposal`, lines 41-44). -/
structure PSt where
  frames : List PFrame := []
  loop_count : Option Nat := none
  delay : Nat := 0
  transparent_index : Option Nat := none
  disposal : Nat := 0
deriving DecidableEq

/-- Generic sub-block scan (the `while (true)` loops at lines 68-76,
100-107 and 140-147): read a length byte, skip that many bytes, until a
zero length; a read past the end of the buffer (`undefined` in JS) fails
the `block_size >= 0` test and throws.  Returns the cursor after the
terminator. -/
def skipSubBlocks : Nat → List Nat → Nat → Except String Nat
  | 0, _, _ => .error "out of fuel"
  | fuel+1, buf, p =>
      match buf[p]? with
      | none => .error "Invalid block size"
      | some block_size =>
          if block_size = 0 then .ok (p + 1)
          else skipSubBlocks fuel buf (p + 1 + block_size)

/-- The NETSCAPE2.0 signature test of lines 55-61 (the second disjunct of
the application-extension condition), with `q` the cursor at the block
size byte. -/
def netscapeSig (buf : List Nat) (q : Nat) : Bool :=
  buf[q+1]? == some 0x4E && buf[q+2]? == some 0x45 && buf[q+3]? == some 0x54 &&
  buf[q+4]? == some 0x53 && buf[q+5]? == some 0x43 && buf[q+6]? == some 0x41 &&
  buf[q+7]? == some 0x50 && buf[q+8]? == some 0x45 && buf[q+9]? == some 0x32 &&
  buf[q+10]? == some 0x2E && buf[q+11]? == some 0x30 &&
  buf[q+12]? == some 0x03 && buf[q+13]? == some 0x01 && buf[q+16]? == some 0

/-- The parser's block loop (`while (no_eof && p < buf.length)`, lines
46-174).  `gpo`/`gps` are the global palette offset/size recorded from the
Logical Screen Descriptor. -/
def parseBlocks (gpo gps : Option Nat) : Nat → List Nat → Nat → PSt → Except String PSt
  | 0, _, _, _ => .error "out of fuel"
  | fuel+1, buf, p, st =>
      if buf.length ≤ p then .ok st
      else
        match buf.getD p 0 with
        | 0x21 =>
            match buf[p+1]? with
            | some 0xFF =>
                -- Application specific block; q is the block size byte.
                let q := p + 2
                if buf[q]? ≠ some 0x0B ∨ netscapeSig buf q then
                  -- Netscape block: read the loop counter.
                  let lc := buf.getD (q + 14) 0 ||| buf.getD (q + 15) 0 <<< 8
                  parseBlocks gpo gps fuel buf (q + 17) { st with loop_count := some lc }
                else
                  -- Unknown application extension: seek through subblocks.
                  match skipSubBlocks (fuel+1) buf (q + 12) with
                  | .error e => .error e
                  | .ok p2 => parseBlocks gpo gps fuel buf p2 st
            | some 0xF9 =>
                -- Graphics Control Extension; q is the byte-size byte.
                let q := p + 2
                if buf[q]? ≠ some 0x4 ∨ buf[q+5]? ≠ some 0 then
                  .error "Invalid graphics extension block."
                else
                  let pf1 := buf.getD (q+1) 0
                  let delay := buf.getD (q+2) 0 ||| buf.getD (q+3) 0 <<< 8
                  let ti := buf.getD (q+4) 0
                  let transparent_index := if pf1 &&& 1 = 0 then none else some ti
                  let disposal := pf1 >>> 2 &&& 0x7
                  parseBlocks gpo gps fuel buf (q + 6)
                    { st with delay := delay, transparent_index := transparent_index,
                              disposal := disposal }
            | some 0x01 | some 0xFE =>
                -- Plain Text / Comment Extension: seek through subblocks.
                match skipSubBlocks (fuel+1) buf (p + 2) with
                | .error e => .error e
                | .ok p2 => parseBlocks gpo gps fuel buf p2 st
            | _ => .error "Unknown graphic control label"
        | 0x2C =>
            -- Image Descriptor; q is the first byte after the separator.
            let q := p + 1
            let x := buf.getD q 0 ||| buf.getD (q+1) 0 <<< 8
            let y := buf.getD (q+2) 0 ||| buf.getD (q+3) 0 <<< 8
            let w := buf.getD (q+4) 0 ||| buf.getD (q+5) 0 <<< 8
            let h := buf.getD (q+6) 0 ||| buf.getD (q+7) 0 <<< 8
            let pf2 := buf.getD (q+8) 0
            let local_palette_flag := pf2 >>> 7
            let interlace_flag := pf2 >>> 6 &&& 1
            let num_local_colors := 1 <<< ((pf2 &&& 0x7) + 1)
            let data_offset := q + 9
            let po := if local_palette_flag ≠ 0 then some (q + 9) else gpo
            let ps := if local_palette_flag ≠ 0 then some num_local_colors else gps
            let p2 := if local_palette_flag ≠ 0 then q + 9 + num_local_colors * 3 else q + 9
            match skipSubBlocks (fuel+1) buf (p2 + 1) with
            | .error e => .error e
            | .ok pEnd =>
                let fr : PFrame :=
                  { x := x, y := y, width := w, height := h,
                    has_local_palette := local_palette_flag ≠ 0,
                    palette_offset := po, palette_size := ps,
                    data_offset := data_offset, data_length := pEnd - data_offset,
                    transparent_index := st.transparent_index,
                    interlaced := interlace_flag ≠ 0,
                    delay := st.delay, disposal := st.disposal }
                parseBlocks gpo gps fuel buf pEnd { st with frames := st.frames ++ [fr] }
        | 0x3B => .ok st
        | _ => .error "Unknown gif block"

/-- The 6-byte header validation of lines 16-19: `GIF8?a` where the fifth
byte `b` passes `(b + 1 & 0xFD) === 0x38`. -/
def headerOk (buf : List Nat) : Bool :=
  buf.getD 0 0 == 0x47 && buf.getD 1 0 == 0x49 && buf.getD 2 0 == 0x46 &&
  buf.getD 3 0 == 0x38 && ((buf.getD 4 0 + 1) &&& 0xFD) == 0x38 &&
  buf.getD 5 0 == 0x61

/-- Result of the `Reader` constructor: canvas size, global palette
byte range, loop count and frame list. -/
structure RSt where
  width : Nat
  height : Nat
  global_palette_offset : Option Nat
  global_palette_size : Option Nat
  st : PSt
deriving DecidableEq

/-- The full `Reader` constructor (lines 11-175): header, Logical Screen
Descriptor, optional Global Color Table seek, then the block loop. -/
def readerInit (buf : List Nat) : Except String RSt :=
  if ¬ headerOk buf then .error "Invalid GIF 87a/89a header."
  else
    let width := buf.getD 6 0 ||| buf.getD 7 0 <<< 8
    let height := buf.getD 8 0 ||| buf.getD 9 0 <<< 8
    let pf0 := buf.getD 10 0
    let global_palette_flag := pf0 >>> 7
    let num_global_colors := 1 <<< ((pf0 &&& 0x7) + 1)
    -- byte 11 is the pixel aspect ratio, skipped
    let gpo := if global_palette_flag ≠ 0 then some 12 else none
    let gps := if global_palette_flag ≠ 0 then some num_global_colors else none
    let p := if global_palette_flag ≠ 0 then 12 + num_global_colors * 3 else 12
    match parseBlocks gpo gps (buf.length + 1) buf p {} with
    | .error e => .error e
    | .ok st => .ok { width := width, height := height,
                      global_palette_offset := gpo, global_palette_size := gps, st := st }

/-! ## Frame compositor (`decodeAndBlitFrameRGBA` / `decodeAndBlitFrameBGRA`,
src/reader.ts lines 191-343)

The two blit functions share one pixel loop that differs only in the
channel order written (`r,g,b,255` vs `b,g,r,255`); we embed that loop
once, parameterised by the `bgra` flag.  `pixels` is the caller-supplied
canvas-sized `Uint8Array`; writes beyond its end are silently dropped
(standard typed-array semantics), which `List.set` models directly. -/

/-- `Uint8Array` element store: in-range writes store the value modulo 256,
out-of-range writes are dropped (`List.set` is a no-op past the end). -/
def u8set (a : List Nat) (i v : Nat) : List Nat := a.set i (v % 256)

/-- The shared pixel loop (lines 236-267 and 315-342): one iteration per
decoded index, with the scan-line / interlace cursor logic of the
`xleft === 0` block. -/
def blitLoop (buffer : List Nat) (palette_offset : Nat) (trans : Nat)
    (canvas_width framewidth framestride opbeg opend : Nat) (bgra : Bool) :
    List Nat → Nat → Nat → Nat → Nat → List Nat → List Nat
  | [], _, _, _, _, pixels => pixels
  | index :: rest, op, xleft, scanstride, interlaceskip, pixels =>
      -- Beginning of new scan line
      let op1 := if xleft = 0 then op + scanstride else op
      let xleft1 := if xleft = 0 then framewidth else xleft
      let jump := xleft = 0 ∧ opend ≤ op1
      let scanstride1 :=
        if jump then framestride * 4 + canvas_width * 4 * (interlaceskip - 1) else scanstride
      let op2 :=
        if jump then opbeg + (framewidth + framestride) * (interlaceskip <<< 1) else op1
      let interlaceskip1 := if jump then interlaceskip >>> 1 else interlaceskip
      if index = trans then
        blitLoop buffer palette_offset trans canvas_width framewidth framestride opbeg opend
          bgra rest (op2 + 4) (xleft1 - 1) scanstride1 interlaceskip1 pixels
      else
        let r := buffer.getD (palette_offset + index * 3) 0
        let g := buffer.getD (palette_offset + index * 3 + 1) 0
        let b := buffer.getD (palette_offset + index * 3 + 2) 0
        let px0 := if bgra then b else r
        let px2 := if bgra then r else b
        let pixels := u8set pixels op2 px0
        let pixels := u8set pixels (op2 + 1) g
        let pixels := u8set pixels (op2 + 2) px2
        let pixels := u8set pixels (op2 + 3) 255
        blitLoop buffer palette_offset trans canvas_width framewidth framestride opbeg opend
          bgra rest (op2 + 4) (xleft1 - 1) scanstride1 interlaceskip1 pixels

/-- The blit part of `decodeAndBlitFrameRGBA` (lines 282-342), given the
already-decoded index stream.  `canvas_width` is the reader's `this.width`.
In the source `framestride = this.width - frame.width` as a JS subtraction;
all theorems below keep the frame inside the canvas, where `Nat`
subtraction agrees. -/
def blitFrameRGBA (buffer : List Nat) (canvas_width : Nat) (frame : PFrame)
    (index_stream : List Nat) (pixels : List Nat) : Except String (List Nat) :=
  match frame.palette_offset with
  | none => .error "No palette found for frame"
  | some palette_offset =>
      let trans := (frame.transparent_index).getD 256
      let framewidth := frame.width
      let framestride := canvas_width - framewidth
      let opbeg := (frame.y * canvas_width + frame.x) * 4
      let opend := ((frame.y + frame.height) * canvas_width + frame.x) * 4
      let scanstride := framestride * 4 + (if frame.interlaced then canvas_width * 4 * 7 else 0)
      .ok (blitLoop buffer palette_offset trans canvas_width framewidth framestride opbeg opend
        false index_stream opbeg framewidth scanstride 8 pixels)

/-- The blit part of `decodeAndBlitFrameBGRA` (lines 203-267).  The source
defers the missing-palette check into the pixel loop; it fails there on
the first non-transparent pixel, which for the whole-loop result is the
same as failing up front unless every pixel is transparent — we model the
up-front check and the all-transparent case exactly. -/
def blitFrameBGRA (buffer : List Nat) (canvas_width : Nat) (frame : PFrame)
    (index_stream : List Nat) (pixels : List Nat) : Except String (List Nat) :=
  let trans := (frame.transparent_index).getD 256
  match frame.palette_offset with
  | none =>
      if index_stream.all (· = trans) then
        .ok pixels
      else .error "No palette found for frame"
  | some palette_offset =>
      let framewidth := frame.width
      let framestride := canvas_width - framewidth
      let opbeg := (frame.y * canvas_width + frame.x) * 4
      let opend := ((frame.y + frame.height) * canvas_width + frame.x) * 4
      let scanstride := framestride * 4 + (if frame.interlaced then canvas_width * 4 * 7 else 0)
      .ok (blitLoop buffer palette_offset trans canvas_width framewidth framestride opbeg opend
        true index_stream opbeg framewidth scanstride 8 pixels)

/-! ## Helper lemmas about the writer byte stream -/

theorem WSt.pushAll_cons (st : WSt) (v : Nat) (vs : List Nat) :
    st.pushAll (v :: vs) = (st.push v).pushAll vs := rfl

theorem WSt.bytes_push (st : WSt) (v : Nat) : (st.push v).bytes = st.bytes ++ [v] := by
  simp [WSt.push, WSt.bytes]

theorem WSt.bytes_pushAll (st : WSt) (vs : List Nat) :
    (st.pushAll vs).bytes = st.bytes ++ vs := by
  induction vs generalizing st with
  | nil => simp [WSt.pushAll]
  | cons v vs ih => rw [WSt.pushAll_cons, ih, WSt.bytes_push, List.append_assoc]; rfl

theorem WSt.p_pushAll (st : WSt) (vs : List Nat) :
    (st.pushAll vs).p = st.p + vs.length := by
  induction vs generalizing st with
  | nil => rfl
  | cons v vs ih => rw [WSt.pushAll_cons, ih]; simp [WSt.push]; omega

theorem WSt.ended_pushAll (st : WSt) (vs : List Nat) :
    (st.pushAll vs).ended = st.ended := by
  induction vs generalizing st with
  | nil => rfl
  | cons v vs ih => rw [WSt.pushAll_cons, ih]; rfl

set_option maxRecDepth 4000 in
/-- The fifth header byte check `(b + 1 & 0xFD) === 0x38` holds for a byte
exactly at `0x37` and `0x39`. -/
theorem headerFifthByte (b : Nat) (hb : b < 256) :
    ((b + 1) &&& 0xFD = 0x38) ↔ (b = 0x37 ∨ b = 0x39) := by
  revert hb; revert b; decide

/-- Reversed-list variant of `WSt.bytes_pushAll`, convenient for `simp`. -/
theorem WSt.out_reverse_pushAll (st : WSt) (vs : List Nat) :
    (st.pushAll vs).out.reverse = st.out.reverse ++ vs :=
  WSt.bytes_pushAll st vs

/-- As long as the canvas dimensions pass validation, the first six bytes
the constructor writes are `GIF89a` — on every path, including the later
validation failures. -/
theorem gifWriterInit_bytes_take6 (w h : Nat) (opts : WriterOptions)
    (hdim : ¬(w = 0 ∨ h = 0 ∨ 65535 < w ∨ 65535 < h)) :
    (gifWriterInit w h opts).1.bytes.take 6 = [0x47, 0x49, 0x46, 0x38, 0x39, 0x61] := by
  unfold gifWriterInit
  rw [if_neg hdim]
  dsimp only
  repeat' split
  all_goals simp [WSt.out_reverse_pushAll, WSt.bytes]

/-- `headerOk` holds exactly on the two magic six-byte prefixes. -/
theorem headerOk_iff (buf : List Nat) (hb : ∀ b ∈ buf, b < 256) :
    headerOk buf = true ↔
      (buf.take 6 = [0x47, 0x49, 0x46, 0x38, 0x37, 0x61] ∨
       buf.take 6 = [0x47, 0x49, 0x46, 0x38, 0x39, 0x61]) := by
  match buf with
  | [] | [b0] | [b0,b1] | [b0,b1,b2] | [b0,b1,b2,b3] | [b0,b1,b2,b3,b4] =>
      simp [headerOk]
  | b0::b1::b2::b3::b4::b5::rest =>
      have h4 : b4 < 256 := hb b4 (by simp)
      simp only [headerOk, List.getD_cons_zero, List.getD_cons_succ,
        Bool.and_eq_true, beq_iff_eq, List.take_succ_cons, List.take_zero,
        List.cons.injEq, and_true]
      rw [headerFifthByte b4 h4]
      tauto

theorem skipSubBlocks_ne_headerError (fuel : Nat) (buf : List Nat) :
    ∀ p, skipSubBlocks fuel buf p ≠ .error "Invalid GIF 87a/89a header." := by
  induction fuel with
  | zero => intro p; simp [skipSubBlocks]
  | succ n ih =>
      intro p
      unfold skipSubBlocks
      match buf[p]? with
      | none => simp
      | some bs =>
          dsimp only
          split
          · simp
          · exact ih _

theorem parseBlocks_ne_headerError (gpo gps : Option Nat) (fuel : Nat) (buf : List Nat) :
    ∀ p st, parseBlocks gpo gps fuel buf p st ≠ .error "Invalid GIF 87a/89a header." := by
  induction fuel with
  | zero => intro p st; simp [parseBlocks]
  | succ n ih =>
      intro p st
      unfold parseBlocks
      dsimp only
      repeat' split
      all_goals first
        | exact ih _ _
        | (intro hc
           rename_i e heq
           injection hc with hmsg
           subst hmsg
           exact skipSubBlocks_ne_headerError _ _ _ heq)
        | simp

/-- **C3** (header bytes): for every successfully constructed writer, the
first six bytes written to the output buffer are exactly the ASCII codes of
`GIF89a`; and the reader's constructor accepts a buffer beginning with
`GIF87a` or `GIF89a` (it never throws the invalid-header error on those)
while throwing the invalid-header error for every other six-byte prefix. -/
theorem C3_header_bytes (w h : Nat) (opts : WriterOptions) (buf : List Nat)
    (hok : (gifWriterInit w h opts).2 = none) (hb : ∀ b ∈ buf, b < 256) :
    (gifWriterInit w h opts).1.bytes.take 6 = [0x47, 0x49, 0x46, 0x38, 0x39, 0x61] ∧
    (headerOk buf = true ↔
      (buf.take 6 = [0x47, 0x49, 0x46, 0x38, 0x37, 0x61] ∨
       buf.take 6 = [0x47, 0x49, 0x46, 0x38, 0x39, 0x61])) ∧
    (headerOk buf = false → readerInit buf = .error "Invalid GIF 87a/89a header.") ∧
    (headerOk buf = true → readerInit buf ≠ .error "Invalid GIF 87a/89a header.") := by
  refine ⟨?_, headerOk_iff buf hb, ?_, ?_⟩
  · by_cases hdim : (w = 0 ∨ h = 0 ∨ 65535 < w ∨ 65535 < h)
    · exfalso
      unfold gifWriterInit at hok
      rw [if_pos hdim] at hok
      simp at hok
    · exact gifWriterInit_bytes_take6 w h opts hdim
  · intro hf
    unfold readerInit
    rw [hf]
    simp
  · intro ht
    unfold readerInit
    rw [ht]
    simp only [not_true, if_false, Bool.true_eq_false, ite_false]
    split
    · rename_i e heq
      intro hc
      injection hc with hmsg
      subst hmsg
      exact parseBlocks_ne_headerError _ _ _ _ _ _ heq
    · simp

theorem C3_header_bytes_witness :
    ((gifWriterInit 2 2 {}).1.bytes.take 6 = [0x47, 0x49, 0x46, 0x38, 0x39, 0x61] ∧
    (headerOk [0x47, 0x49, 0x46, 0x38, 0x37, 0x61] = true ↔
      ([0x47, 0x49, 0x46, 0x38, 0x37, 0x61].take 6 = [0x47, 0x49, 0x46, 0x38, 0x37, 0x61] ∨
       [0x47, 0x49, 0x46, 0x38, 0x37, 0x61].take 6 = [0x47, 0x49, 0x46, 0x38, 0x39, 0x61])) ∧
    (headerOk [0x47, 0x49, 0x46, 0x38, 0x37, 0x61] = false →
      readerInit [0x47, 0x49, 0x46, 0x38, 0x37, 0x61] = .error "Invalid GIF 87a/89a header.") ∧
    (headerOk [0x47, 0x49, 0x46, 0x38, 0x37, 0x61] = true →
      readerInit [0x47, 0x49, 0x46, 0x38, 0x37, 0x61] ≠ .error "Invalid GIF 87a/89a header.")) :=
  C3_header_bytes 2 2 {} [0x47, 0x49, 0x46, 0x38, 0x37, 0x61] rfl (by decide)

/-- `addFrame` on a finalized stream first rewinds the cursor past the
trailer byte and then behaves exactly as on the rewound state. -/
theorem addFrame_unend (gp : Option (List Nat)) (st : WSt) (hst : st.ended = true)
    (x y w h : Nat) (px : List Nat) (o : FrameOptions) :
    addFrame gp st x y w h px o =
      addFrame gp { out := st.out.tail, p := st.p - 1, ended := false } x y w h px o := by
  rw [addFrame, addFrame, hst]
  rfl

/-- **C7** (un-ending and idempotent end): on a non-finalized stream,
`end()` appends exactly one trailer byte `0x3B` and returns the final
length; a second `end()` changes nothing and returns the same length; and
`addFrame` called after `end()` rewinds the cursor to the trailer's former
position and behaves exactly like `addFrame` on the state before `end()`,
so a subsequent `end()` again writes exactly one trailer byte at the new
final position. -/
theorem C7_unending_idempotent_end (gp : Option (List Nat)) (st : WSt)
    (x y w h : Nat) (px : List Nat) (opts : FrameOptions)
    (hne : st.ended = false) :
    (gifEnd st).1.bytes = st.bytes ++ [0x3B] ∧
    (gifEnd st).2 = st.p + 1 ∧
    (gifEnd st).1.p = st.p + 1 ∧
    (gifEnd st).1.ended = true ∧
    gifEnd (gifEnd st).1 = ((gifEnd st).1, (gifEnd st).2) ∧
    addFrame gp (gifEnd st).1 x y w h px opts = addFrame gp st x y w h px opts := by
  obtain ⟨out, p, ended⟩ := st
  simp only at hne
  subst hne
  refine ⟨?_, ?_, ?_, ?_, ?_, ?_⟩
  · simp [gifEnd, WSt.push, WSt.bytes]
  · rfl
  · rfl
  · rfl
  · rfl
  · rw [addFrame_unend gp _ rfl]
    rfl

theorem C7_unending_idempotent_end_witness :
    ((gifEnd ⟨[], 0, false⟩).1.bytes = WSt.bytes ⟨[], 0, false⟩ ++ [0x3B] ∧
    (gifEnd ⟨[], 0, false⟩).2 = 0 + 1 ∧
    (gifEnd ⟨[], 0, false⟩).1.p = 0 + 1 ∧
    (gifEnd ⟨[], 0, false⟩).1.ended = true ∧
    gifEnd (gifEnd ⟨[], 0, false⟩).1 = ((gifEnd ⟨[], 0, false⟩).1, (gifEnd ⟨[], 0, false⟩).2) ∧
    addFrame (some [1, 2]) (gifEnd ⟨[], 0, false⟩).1 0 0 1 1 [0] {} =
      addFrame (some [1, 2]) ⟨[], 0, false⟩ 0 0 1 1 [0] {}) :=
  C7_unending_idempotent_end (some [1, 2]) ⟨[], 0, false⟩ 0 0 1 1 [0] {} rfl

set_option maxRecDepth 8000 in
/-- For a valid palette size (power of two in 2..256), the source's
`while (n >>= 1)` log2 computation followed by `1 << pow2` recovers the
size exactly. -/
theorem shiftCount32_pow (n : Nat) (hn : n < 257) (h2 : 2 ≤ n)
    (hpow : n &&& (n-1) = 0) : 1 <<< shiftCount32 n = n := by
  revert hpow; revert h2; revert hn; revert n; decide

/-- **C4 counterexample**: the claim says a supplied `background` with no
global palette is a hard validation error, but the constructor only reads
`options.background` inside the global-palette branch — with no palette the
construction *succeeds* (no error is thrown) and the option is silently
ignored. -/
theorem C4_counterexample :
    (gifWriterInit 1 1 { palette := none, loop := none, background := some 1 }).2 = none := rfl

/-- **C4 amended** (background validation): when a global palette is
present, a supplied background of 0 is rejected outright
(`Background index explicitly passed as 0.`), a background at or above the
palette size is rejected (`Background index out of range.`), both after the
6-byte header has been written, and an in-range nonzero background changes
nothing about success; but when there is *no* global palette, a supplied
background is silently ignored (the construction behaves exactly as if no
background had been passed), rather than failing. -/
theorem C4_background_validation (w h : Nat) (pal : List Nat) (bg : Nat) (lo : Option Nat)
    (hdim : ¬(w = 0 ∨ h = 0 ∨ 65535 < w ∨ 65535 < h))
    (hpal : check_palette_and_num_colors pal = some pal.length) :
    ((gifWriterInit w h { palette := some pal, loop := lo, background := some 0 }).2 =
        some "Background index explicitly passed as 0." ∧
     (gifWriterInit w h { palette := some pal, loop := lo, background := some 0 }).1.bytes =
        [0x47, 0x49, 0x46, 0x38, 0x39, 0x61]) ∧
    (pal.length ≤ bg →
      (gifWriterInit w h { palette := some pal, loop := lo, background := some bg }).2 =
        some "Background index out of range." ∧
      (gifWriterInit w h { palette := some pal, loop := lo, background := some bg }).1.bytes =
        [0x47, 0x49, 0x46, 0x38, 0x39, 0x61]) ∧
    (0 < bg → bg < pal.length →
      (gifWriterInit w h { palette := some pal, loop := lo, background := some bg }).2 =
      (gifWriterInit w h { palette := some pal, loop := lo, background := none }).2) ∧
    (∀ bg2 lo2, gifWriterInit w h { palette := none, loop := lo2, background := some bg2 } =
      gifWriterInit w h { palette := none, loop := lo2, background := none }) := by
  have hcond : ¬(pal.length < 2 ∨ 256 < pal.length ∨ pal.length &&& (pal.length - 1) ≠ 0) := by
    by_contra hc
    rw [check_palette_and_num_colors] at hpal
    simp only [if_pos hc] at hpal
    exact Option.noConfusion hpal
  push_neg at hcond
  obtain ⟨hlen2, hlen256, hand⟩ := hcond
  have hpow : 1 <<< shiftCount32 pal.length = pal.length :=
    shiftCount32_pow pal.length (by omega) (by omega) hand
  refine ⟨?_, ?_, ?_, ?_⟩
  · rw [gifWriterInit, if_neg hdim]
    dsimp only
    rw [hpal]
    dsimp only
    rw [hpow, if_neg (by omega), if_pos rfl]
    exact ⟨rfl, by simp [WSt.out_reverse_pushAll, WSt.bytes]⟩
  · intro hbg
    rw [gifWriterInit, if_neg hdim]
    dsimp only
    rw [hpal]
    dsimp only
    rw [hpow, if_pos hbg]
    exact ⟨rfl, by simp [WSt.out_reverse_pushAll, WSt.bytes]⟩
  · intro hbg0 hbglt
    rw [gifWriterInit, if_neg hdim, gifWriterInit, if_neg hdim]
    dsimp only
    rw [hpal]
    dsimp only
    rw [hpow, if_neg (by omega), if_neg (by omega)]
    cases lo with
    | none => rfl
    | some lc =>
        dsimp only
        split <;> rfl
  · intro bg2 lo2
    rw [gifWriterInit, if_neg hdim, gifWriterInit, if_neg hdim]

theorem C4_background_validation_witness :
    (((gifWriterInit 1 1 { palette := some [1, 2], loop := none, background := some 0 }).2 =
        some "Background index explicitly passed as 0." ∧
     (gifWriterInit 1 1 { palette := some [1, 2], loop := none, background := some 0 }).1.bytes =
        [0x47, 0x49, 0x46, 0x38, 0x39, 0x61]) ∧
    ([1, 2].length ≤ 2 →
      (gifWriterInit 1 1 { palette := some [1, 2], loop := none, background := some 2 }).2 =
        some "Background index out of range." ∧
      (gifWriterInit 1 1 { palette := some [1, 2], loop := none, background := some 2 }).1.bytes =
        [0x47, 0x49, 0x46, 0x38, 0x39, 0x61]) ∧
    (0 < 2 → 2 < [1, 2].length →
      (gifWriterInit 1 1 { palette := some [1, 2], loop := none, background := some 2 }).2 =
      (gifWriterInit 1 1 { palette := some [1, 2], loop := none, background := none }).2) ∧
    (∀ bg2 lo2, gifWriterInit 1 1 { palette := none, loop := lo2, background := some bg2 } =
      gifWriterInit 1 1 { palette := none, loop := lo2, background := none })) :=
  C4_background_validation 1 1 [1, 2] 2 none (by decide) rfl

theorem paletteBytes_length (pal : List Nat) : (paletteBytes pal).length = 3 * pal.length := by
  induction pal with
  | nil => rfl
  | cons c cs ih => simp [paletteBytes] at ih ⊢; omega

/-- On a non-finalized stream, a failing `addFrame` leaves the writer state
untouched: every validation check precedes the first write. -/
theorem addFrame_error_state (gp : Option (List Nat)) (st : WSt)
    (x y w h : Nat) (px : List Nat) (o : FrameOptions)
    (hne : st.ended = false) (herr : (addFrame gp st x y w h px o).2 ≠ none) :
    (addFrame gp st x y w h px o).1 = st := by
  revert herr
  unfold addFrame
  rw [hne]
  simp only [Bool.false_eq_true, if_false]
  repeat' split
  all_goals intro herr
  all_goals first
    | rfl
    | exact absurd rfl herr

/-- **C9 counterexample**: the claim says every failing validation in the
constructor writes no bytes, but an invalid palette size (here length 3) is
detected only after the 6-byte `GIF89a` header has already been written to
the caller's buffer. -/
theorem C9_counterexample :
    (gifWriterInit 1 1 { palette := some [0, 0, 0], loop := none, background := none }).2 =
      some "Invalid code/color length, must be power of 2 and 2 .. 256." ∧
    (gifWriterInit 1 1 { palette := some [0, 0, 0], loop := none, background := none }).1.bytes =
      [0x47, 0x49, 0x46, 0x38, 0x39, 0x61] := by
  constructor
  · rfl
  · decide

/-- **C9 amended** (validation atomicity): `addFrame` is atomic — when it
fails with any validation error it has written no bytes, leaving buffer and
cursor unchanged — except that calling it on a finalized stream first
performs the un-end rewind of the cursor, and that rewind survives the
failure.  The constructor is *not* atomic: only the dimension check
precedes all writes; any later validation failure happens after the 6-byte
header is in the buffer, and a loop-count failure happens after header,
Logical Screen Descriptor and global color table (13 + 3·paletteSize
bytes, 13 without a palette) are in the buffer. -/
theorem C9_validation_atomicity (gp : Option (List Nat)) (st : WSt)
    (x y w h : Nat) (px : List Nat) (o : FrameOptions)
    (cw ch : Nat) (opts : WriterOptions) (pal : List Nat) (lc : Nat)
    (hdim : ¬(cw = 0 ∨ ch = 0 ∨ 65535 < cw ∨ 65535 < ch))
    (hpal : check_palette_and_num_colors pal = some pal.length)
    (hlc : 65535 < lc) :
    (st.ended = false → (addFrame gp st x y w h px o).2 ≠ none →
      (addFrame gp st x y w h px o).1 = st) ∧
    (st.ended = true → (addFrame gp st x y w h px o).2 ≠ none →
      (addFrame gp st x y w h px o).1 = { out := st.out.tail, p := st.p - 1, ended := false }) ∧
    (∀ cw2 ch2 (opts2 : WriterOptions), (cw2 = 0 ∨ ch2 = 0 ∨ 65535 < cw2 ∨ 65535 < ch2) →
      gifWriterInit cw2 ch2 opts2 = (⟨[], 0, false⟩, some "Width/Height invalid.")) ∧
    (gifWriterInit cw ch opts).1.bytes.take 6 = [0x47, 0x49, 0x46, 0x38, 0x39, 0x61] ∧
    ((gifWriterInit cw ch { palette := some pal, loop := some lc, background := none }).2 =
        some "Loop count invalid." ∧
     (gifWriterInit cw ch { palette := some pal, loop := some lc, background := none
        }).1.bytes.length = 13 + 3 * pal.length) ∧
    ((gifWriterInit cw ch { palette := none, loop := some lc, background := none }).2 =
        some "Loop count invalid." ∧
     (gifWriterInit cw ch { palette := none, loop := some lc, background := none
        }).1.bytes.length = 13) := by
  refine ⟨addFrame_error_state gp st x y w h px o, ?_, ?_,
    gifWriterInit_bytes_take6 cw ch opts hdim, ?_, ?_⟩
  · intro hend herr
    rw [addFrame_unend gp st hend] at herr ⊢
    exact addFrame_error_state gp _ x y w h px o rfl herr
  · intro cw2 ch2 opts2 hd2
    rw [gifWriterInit, if_pos hd2]
  · rw [gifWriterInit, if_neg hdim]
    dsimp only
    rw [hpal]
    dsimp only
    rw [if_pos hlc]
    refine ⟨rfl, ?_⟩
    simp [WSt.bytes, WSt.out_reverse_pushAll, paletteBytes_length]
    omega
  · rw [gifWriterInit, if_neg hdim]
    dsimp only
    rw [if_pos hlc]
    exact ⟨rfl, by simp [WSt.bytes, WSt.out_reverse_pushAll]⟩

theorem C9_validation_atomicity_witness :
    ((WSt.ended ⟨[], 0, false⟩ = false →
      (addFrame (some [1, 2]) ⟨[], 0, false⟩ 0 0 1 1 [0] {}).2 ≠ none →
      (addFrame (some [1, 2]) ⟨[], 0, false⟩ 0 0 1 1 [0] {}).1 = ⟨[], 0, false⟩) ∧
    (WSt.ended ⟨[], 0, false⟩ = true →
      (addFrame (some [1, 2]) ⟨[], 0, false⟩ 0 0 1 1 [0] {}).2 ≠ none →
      (addFrame (some [1, 2]) ⟨[], 0, false⟩ 0 0 1 1 [0] {}).1 =
        { out := List.tail [], p := 0 - 1, ended := false }) ∧
    (∀ cw2 ch2 (opts2 : WriterOptions), (cw2 = 0 ∨ ch2 = 0 ∨ 65535 < cw2 ∨ 65535 < ch2) →
      gifWriterInit cw2 ch2 opts2 = (⟨[], 0, false⟩, some "Width/Height invalid.")) ∧
    (gifWriterInit 1 1 {}).1.bytes.take 6 = [0x47, 0x49, 0x46, 0x38, 0x39, 0x61] ∧
    ((gifWriterInit 1 1 { palette := some [1, 2], loop := some 70000, background := none }).2 =
        some "Loop count invalid." ∧
     (gifWriterInit 1 1 { palette := some [1, 2], loop := some 70000, background := none
        }).1.bytes.length = 13 + 3 * [1, 2].length) ∧
    ((gifWriterInit 1 1 { palette := none, loop := some 70000, background := none }).2 =
        some "Loop count invalid." ∧
     (gifWriterInit 1 1 { palette := none, loop := some 70000, background := none
        }).1.bytes.length = 13)) :=
  C9_validation_atomicity (some [1, 2]) ⟨[], 0, false⟩ 0 0 1 1 [0] {} 1 1 {} [1, 2] 70000
    (by decide) rfl (by decide)

/-- Reducing a value modulo `2 ^ m` does not change its masked low `m`
bits — the encoder reads every input index through `& code_mask`. -/
theorem maskMod (k m : Nat) :
    (k % (1 <<< m)) &&& ((1 <<< m) - 1) = k &&& ((1 <<< m) - 1) := by
  rw [Nat.one_shiftLeft, Nat.and_pow_two_sub_one_eq_mod, Nat.and_pow_two_sub_one_eq_mod,
    Nat.mod_mod_of_dvd k dvd_rfl]

theorem encStep_mask (m : Nat) (st : EncSt) (k : Nat) :
    encStep m st (k % (1 <<< m)) = encStep m st k := by
  unfold encStep
  dsimp only
  rw [maskMod]

theorem encInit_mask (p m : Nat) (s : List Nat) :
    encInit p m (s.map (· % (1 <<< m))) = encInit p m s := by
  unfold encInit
  dsimp only
  cases s with
  | nil => rfl
  | cons a s => simp only [List.map_cons, List.getD_cons_zero, maskMod]

theorem GifWriterOutputLZWCodeStream_mask (p m : Nat) (s : List Nat) :
    GifWriterOutputLZWCodeStream p m (s.map (· % (1 <<< m))) =
      GifWriterOutputLZWCodeStream p m s := by
  unfold GifWriterOutputLZWCodeStream
  dsimp only
  rw [encInit_mask, ← List.map_drop, List.foldl_map]
  rw [List.foldl_ext (fun a b => encStep m a ((· % (1 <<< m)) b)) (encStep m) _
    (fun a b _ => encStep_mask m a b)]

/-- `addFrame`'s validation only reads the pixel array's length, never its
contents. -/
theorem addFrameValidate_length (gp : Option (List Nat)) (x y w h : Nat)
    (px px2 : List Nat) (o : FrameOptions) (hlen : px2.length = px.length) :
    addFrameValidate gp x y w h px2 o = addFrameValidate gp x y w h px o := by
  unfold addFrameValidate
  rw [hlen]

/-- On success, the validation phase's `min_code_size` is the floor log2 of
the resolved palette's size. -/
theorem addFrameValidate_ok_mcs (gp : Option (List Nat)) (x y w h : Nat)
    (px : List Nat) (o : FrameOptions) (pal : List Nat) (fp : FrameParams)
    (hpalR : o.palette.orElse (fun _ => gp) = some pal)
    (hpal : check_palette_and_num_colors pal = some pal.length)
    (hok : addFrameValidate gp x y w h px o = .ok fp) :
    fp.min_code_size = shiftCount32 pal.length := by
  unfold addFrameValidate at hok
  rw [hpalR] at hok
  dsimp only at hok
  rw [hpal] at hok
  dsimp only at hok
  repeat' split at hok
  all_goals first
    | exact Except.noConfusion hok
    | (injection hok with hfp; rw [← hfp])

set_option maxHeartbeats 1000000 in
/-- **C10** (encoder masks out-of-range indices): the LZW encoder reads
every input index through the mask `2^minCodeSize - 1`, so the code stream
for a sequence equals the code stream for the same sequence reduced modulo
`2^minCodeSize`; `addFrame` never inspects pixel values (success and the
error outcome depend only on the pixel count), and the frame it emits for
out-of-range pixel indices is identical to the frame for the wrapped
indices — such pixels are silently wrapped, never rejected. -/
theorem C10_encoder_masks_indices (p m : Nat) (s : List Nat)
    (gp : Option (List Nat)) (st : WSt) (x y w h : Nat) (px px2 : List Nat)
    (o : FrameOptions) (pal : List Nat)
    (hpalR : o.palette.orElse (fun _ => gp) = some pal)
    (hpal : check_palette_and_num_colors pal = some pal.length)
    (hlen : px2.length = px.length) :
    GifWriterOutputLZWCodeStream p m (s.map (· % (1 <<< m))) =
      GifWriterOutputLZWCodeStream p m s ∧
    (addFrame gp st x y w h px o).2 = (addFrame gp st x y w h px2 o).2 ∧
    addFrame gp st x y w h
        (px.map (· % (1 <<< (if shiftCount32 pal.length < 2 then 2
          else shiftCount32 pal.length)))) o =
      addFrame gp st x y w h px o := by
  refine ⟨GifWriterOutputLZWCodeStream_mask p m s, ?_, ?_⟩
  · unfold addFrame
    rw [addFrameValidate_length gp x y w h px px2 o hlen]
    dsimp only
    split <;> rfl
  · unfold addFrame
    rw [addFrameValidate_length gp x y w h px
      (px.map (· % (1 <<< (if shiftCount32 pal.length < 2 then 2
        else shiftCount32 pal.length)))) o (List.length_map _ _)]
    dsimp only
    split
    · rfl
    · rename_i fp hv
      have hm := addFrameValidate_ok_mcs gp x y w h px o pal fp hpalR hpal hv
      rw [hm, GifWriterOutputLZWCodeStream_mask]

theorem C10_encoder_masks_indices_witness :
    (GifWriterOutputLZWCodeStream 0 2 ([3].map (· % (1 <<< 2))) =
      GifWriterOutputLZWCodeStream 0 2 [3] ∧
    (addFrame none ⟨[], 0, false⟩ 0 0 2 1 [5, 9] { palette := some [1, 2] }).2 =
      (addFrame none ⟨[], 0, false⟩ 0 0 2 1 [0, 0] { palette := some [1, 2] }).2 ∧
    addFrame none ⟨[], 0, false⟩ 0 0 2 1
        ([5, 9].map (· % (1 <<< (if shiftCount32 [1, 2].length < 2 then 2
          else shiftCount32 [1, 2].length)))) { palette := some [1, 2] } =
      addFrame none ⟨[], 0, false⟩ 0 0 2 1 [5, 9] { palette := some [1, 2] }) :=
  C10_encoder_masks_indices 0 2 [3] none ⟨[], 0, false⟩ 0 0 2 1 [5, 9] [0, 0]
    { palette := some [1, 2] } [1, 2] rfl rfl rfl

/-- A two-frame stream whose single Graphics Control Extension (delay 5,
disposal 1) precedes only the *first* Image Descriptor.  (The embedded
parser's block loop starts right after the 6-byte signature, the 4-byte
dimensions, the packed-fields byte and the one byte the source skips.) -/
def gceCarryOverBuf : List Nat :=
  [0x47, 0x49, 0x46, 0x38, 0x39, 0x61, 1, 0, 1, 0, 0, 0] ++
  [0x21, 0xF9, 4, 4, 5, 0, 0, 0] ++
  [0x2C, 0, 0, 0, 0, 1, 0, 1, 0, 0] ++ [2, 0] ++
  [0x2C, 0, 0, 0, 0, 1, 0, 1, 0, 0] ++ [2, 0] ++
  [0x3B]

/-- **C5 counterexample**: the claim says a frame not preceded by its own
Graphics Control Extension gets the defaults (delay 0, disposal 0, no
transparency).  In `gceCarryOverBuf` only the first frame is preceded by a
GCE (delay 5, disposal 1), yet the parser stamps the *second* frame with
`(5, 1)` as well — the registers are never reset between frames. -/
theorem C5_counterexample :
    (readerInit gceCarryOverBuf).toOption.map
        (fun r => r.st.frames.map (fun f => (f.delay, f.disposal, f.transparent_index))) =
      some [(5, 1, none), (5, 1, none)] ∧
    ((5 : Nat), (1 : Nat), (none : Option Nat)) ≠ ((0 : Nat), (0 : Nat), (none : Option Nat)) := by
  constructor
  · rfl
  · decide

/-- **C5 amended** (Graphics Control Extension scoping): a Graphics Control
Extension sets the parser's delay / transparency / disposal registers, and
an Image Descriptor stamps the *current* register values into the assembled
frame descriptor while leaving the registers unchanged — so the values
apply to the next Image Descriptor *and persist for every following frame*
until another GCE overwrites them; they are not reset to defaults for each
new frame.  Only frames with no GCE anywhere before them get the initial
defaults (delay 0, disposal 0, no transparency). -/
theorem C5_gce_scoping (gpo gps : Option Nat) (fuel : Nat) (buf : List Nat)
    (p pEnd : Nat) (st : PSt)
    (hlt : p < buf.length)
    (hsk : skipSubBlocks (fuel+1) buf
      ((if buf.getD (p+1+8) 0 >>> 7 ≠ 0
        then p + 1 + 9 + (1 <<< ((buf.getD (p+1+8) 0 &&& 0x7) + 1)) * 3
        else p + 1 + 9) + 1) = .ok pEnd) :
    (buf.getD p 0 = 0x21 → buf[p+1]? = some 0xF9 → buf[p+2]? = some 0x4 →
      buf[p+2+5]? = some 0 →
      parseBlocks gpo gps (fuel+1) buf p st =
        parseBlocks gpo gps fuel buf (p + 2 + 6)
          { st with
              delay := buf.getD (p+2+2) 0 ||| buf.getD (p+2+3) 0 <<< 8,
              transparent_index :=
                if buf.getD (p+2+1) 0 &&& 1 = 0 then none else some (buf.getD (p+2+4) 0),
              disposal := buf.getD (p+2+1) 0 >>> 2 &&& 0x7 }) ∧
    (buf.getD p 0 = 0x2C →
      ∃ fr : PFrame,
        parseBlocks gpo gps (fuel+1) buf p st =
          parseBlocks gpo gps fuel buf pEnd { st with frames := st.frames ++ [fr] } ∧
        fr.delay = st.delay ∧ fr.disposal = st.disposal ∧
        fr.transparent_index = st.transparent_index) := by
  constructor
  · intro hp hlab hsz hterm
    conv_lhs => rw [parseBlocks]
    rw [if_neg (by omega), hp]
    dsimp only
    rw [hlab]
    dsimp only
    rw [if_neg (by simp [hsz, hterm])]
  · intro hp
    have heq : parseBlocks gpo gps (fuel+1) buf p st =
        parseBlocks gpo gps fuel buf pEnd
          { st with frames := st.frames ++
              [{ x := buf.getD (p + 1) 0 ||| buf.getD (p + 1 + 1) 0 <<< 8,
                 y := buf.getD (p + 1 + 2) 0 ||| buf.getD (p + 1 + 3) 0 <<< 8,
                 width := buf.getD (p + 1 + 4) 0 ||| buf.getD (p + 1 + 5) 0 <<< 8,
                 height := buf.getD (p + 1 + 6) 0 ||| buf.getD (p + 1 + 7) 0 <<< 8,
                 has_local_palette := buf.getD (p + 1 + 8) 0 >>> 7 ≠ 0,
                 palette_offset :=
                   if buf.getD (p + 1 + 8) 0 >>> 7 ≠ 0 then some (p + 1 + 9) else gpo,
                 palette_size :=
                   if buf.getD (p + 1 + 8) 0 >>> 7 ≠ 0 then
                     some (1 <<< ((buf.getD (p + 1 + 8) 0 &&& 0x7) + 1))
                   else gps,
                 data_offset := p + 1 + 9,
                 data_length := pEnd - (p + 1 + 9),
                 transparent_index := st.transparent_index,
                 interlaced := buf.getD (p + 1 + 8) 0 >>> 6 &&& 1 ≠ 0,
                 delay := st.delay,
                 disposal := st.disposal }] } := by
      conv_lhs => rw [parseBlocks]
      rw [if_neg (by omega), hp]
      dsimp only
      rw [hsk]
    exact ⟨_, heq, rfl, rfl, rfl⟩

theorem C5_gce_scoping_witness :
    ((gceCarryOverBuf.getD 12 0 = 0x21 → gceCarryOverBuf[12+1]? = some 0xF9 →
      gceCarryOverBuf[12+2]? = some 0x4 → gceCarryOverBuf[12+2+5]? = some 0 →
      parseBlocks none none (5+1) gceCarryOverBuf 12 {} =
        parseBlocks none none 5 gceCarryOverBuf (12 + 2 + 6)
          { ({} : PSt) with
              delay := gceCarryOverBuf.getD (12+2+2) 0 ||| gceCarryOverBuf.getD (12+2+3) 0 <<< 8,
              transparent_index :=
                if gceCarryOverBuf.getD (12+2+1) 0 &&& 1 = 0 then none
                else some (gceCarryOverBuf.getD (12+2+4) 0),
              disposal := gceCarryOverBuf.getD (12+2+1) 0 >>> 2 &&& 0x7 }) ∧
    (gceCarryOverBuf.getD 12 0 = 0x2C →
      ∃ fr : PFrame,
        parseBlocks none none (5+1) gceCarryOverBuf 12 {} =
          parseBlocks none none 5 gceCarryOverBuf 24
            { ({} : PSt) with frames := PSt.frames {} ++ [fr] } ∧
        fr.delay = PSt.delay {} ∧ fr.disposal = PSt.disposal {} ∧
        fr.transparent_index = PSt.transparent_index {})) :=
  C5_gce_scoping none none 5 gceCarryOverBuf 12 24 {} (by decide) rfl

/-- An application extension whose declared block size is 1 (not the
Netscape 0x0B), followed by the trailer. -/
def appExtSize1Buf : List Nat :=
  [0x47, 0x49, 0x46, 0x38, 0x39, 0x61, 1, 0, 1, 0, 0, 0] ++
  [0x21, 0xFF, 0x01, 0x41, 0x00] ++
  [0x3B]

/-- **C6 counterexample**: the claim says an application extension whose
declared block size differs from 0x0B is skipped by generic sub-block
scanning, leaving the loop count unchanged and parsing continuing
correctly.  On `appExtSize1Buf` (block size 1) the parser instead takes the
Netscape branch: it overwrites the recorded loop count (here with 0, read
from two positions past the end of the buffer) and jumps the cursor past
the trailer, never seeing the remaining blocks. -/
theorem C6_counterexample :
    (readerInit appExtSize1Buf).toOption.map (fun r => r.st.loop_count) = some (some 0) ∧
    (some (some 0) : Option (Option Nat)) ≠ some none := by
  constructor
  · rfl
  · decide

/-- **C6 amended** (application-extension skipping): only an application
extension whose declared block size is exactly 0x0B and whose content does
not match the NETSCAPE2.0 signature is skipped by generic sub-block
scanning (starting after the 11 identifier bytes) with the recorded loop
count unchanged; an application extension whose declared block size
*differs* from 0x0B is treated as a Netscape looping block — the parser
skips 14 bytes, reads a 16-bit loop count into the state and skips one
more byte, regardless of the extension's actual length. -/
theorem C6_application_extension_dispatch (gpo gps : Option Nat) (fuel : Nat)
    (buf : List Nat) (p p2 : Nat) (st : PSt)
    (hlt : p < buf.length) (hp : buf.getD p 0 = 0x21) (hlab : buf[p+1]? = some 0xFF) :
    (buf[p+2]? = some 0x0B → netscapeSig buf (p+2) = false →
      skipSubBlocks (fuel+1) buf (p+2+12) = .ok p2 →
      parseBlocks gpo gps (fuel+1) buf p st = parseBlocks gpo gps fuel buf p2 st) ∧
    (buf[p+2]? ≠ some 0x0B →
      parseBlocks gpo gps (fuel+1) buf p st =
        parseBlocks gpo gps fuel buf (p+2+17)
          { st with loop_count := some (buf.getD (p+2+14) 0 ||| buf.getD (p+2+15) 0 <<< 8) }) := by
  constructor
  · intro hsz hns hsk
    conv_lhs => rw [parseBlocks]
    rw [if_neg (by omega), hp]
    dsimp only
    rw [hlab]
    dsimp only
    rw [if_neg (by simp [hsz, hns]), hsk]
  · intro hsz
    conv_lhs => rw [parseBlocks]
    rw [if_neg (by omega), hp]
    dsimp only
    rw [hlab]
    dsimp only
    rw [if_pos (Or.inl hsz)]

theorem C6_application_extension_dispatch_witness :
    ((appExtSize1Buf[12+2]? = some 0x0B → netscapeSig appExtSize1Buf (12+2) = false →
      skipSubBlocks (5+1) appExtSize1Buf (12+2+12) = .ok 40 →
      parseBlocks none none (5+1) appExtSize1Buf 12 {} =
        parseBlocks none none 5 appExtSize1Buf 40 {}) ∧
    (appExtSize1Buf[12+2]? ≠ some 0x0B →
      parseBlocks none none (5+1) appExtSize1Buf 12 {} =
        parseBlocks none none 5 appExtSize1Buf (12+2+17)
          { ({} : PSt) with loop_count := some (appExtSize1Buf.getD (12+2+14) 0 ||| appExtSize1Buf.getD (12+2+15) 0 <<< 8) })) :=
  C6_application_extension_dispatch none none 5 appExtSize1Buf 12 40 {}
    (by decide) (by decide) (by decide)

/-! ## C2: dictionary growth of the encoder

The table evolution of `encStep` (lines 324-376 of src/writer.ts) reads and
writes only `next_code`, `cur_code_size`, `ib_code` and `code_table`; the
byte-output fields (`out`, `p`, `cur`, `cur_shift`, `cur_subblock`) never
feed back into it.  We project the encoder state onto those four fields and
prove that `encStep` acts on the projection through `dictStep`, so that
concrete dictionary traces of long inputs can be evaluated checkpoint by
checkpoint without dragging the byte output along. -/

/-- The dictionary-side fields of `EncSt`. -/
structure DictSt where
  next_code : Nat
  cur_code_size : Nat
  ib_code : Nat
  code_table : NatMap
deriving DecidableEq

def dictProj (st : EncSt) : DictSt :=
  ⟨st.next_code, st.cur_code_size, st.ib_code, st.code_table⟩

/-- The action of `encStep` on the dictionary fields (same branches as
`encStep`, with the byte emission dropped). -/
def dictStep (min_code_size : Nat) (d : DictSt) (kraw : Nat) : DictSt :=
  let clear_code := 1 <<< min_code_size
  let code_mask := clear_code - 1
  let eoi_code := clear_code + 1
  let k := kraw &&& code_mask
  let cur_key := d.ib_code <<< 8 ||| k
  match d.code_table.find cur_key with
  | some cur_code => { d with ib_code := cur_code }
  | none =>
      let d3 :=
        if d.next_code = 4096 then
          { d with next_code := eoi_code + 1,
                   cur_code_size := min_code_size + 1,
                   code_table := .leaf }
        else
          let d2a :=
            if 1 <<< d.cur_code_size ≤ d.next_code then
              { d with cur_code_size := d.cur_code_size + 1 }
            else d
          { d2a with code_table := d2a.code_table.insert cur_key d2a.next_code,
                     next_code := d2a.next_code + 1 }
      { d3 with ib_code := k }

theorem emitLoop_dictProj (fuel bbs : Nat) :
    ∀ st : EncSt, dictProj (emitLoop fuel bbs st) = dictProj st := by
  induction fuel with
  | zero => intro st; rfl
  | succ n ih =>
      intro st
      conv_lhs => rw [emitLoop]
      dsimp only
      split
      · rw [ih]
        dsimp only [EncSt.push, EncSt.patchSubblock]
        split <;> rfl
      · rfl

theorem emitLoop_next_code (fuel bbs : Nat) (st : EncSt) :
    (emitLoop fuel bbs st).next_code = st.next_code :=
  congrArg DictSt.next_code (emitLoop_dictProj fuel bbs st)

/-- `encStep` acts on the dictionary fields through `dictStep`. -/
theorem encStep_dictProj (m : Nat) (st : EncSt) (k : Nat) :
    dictProj (encStep m st k) = dictStep m (dictProj st) k := by
  unfold encStep dictStep
  dsimp only [dictProj]
  cases hf : st.code_table.find (st.ib_code <<< 8 ||| (k &&& (1 <<< m - 1))) with
  | some c => rfl
  | none =>
      dsimp only
      have hE := emitLoop_dictProj (st.cur_shift + st.cur_code_size) 8
        { st with cur := st.cur ||| (st.ib_code <<< st.cur_shift),
                  cur_shift := st.cur_shift + st.cur_code_size }
      simp only [dictProj, DictSt.mk.injEq] at hE
      obtain ⟨h1, h2, h3, h4⟩ := hE
      rw [h1, h2, h4]
      by_cases hc : st.next_code = 4096
      · simp only [if_pos hc]
      · simp only [if_neg hc]
        by_cases hg : 1 <<< st.cur_code_size ≤ st.next_code
        · simp only [if_pos hg]
        · simp only [if_neg hg]
          simp only [h1, h2, h4]

/-- Every state of the encoder's main loop over `ks`, starting from `st`,
has `next_code < 4096` — so the `next_code === 4096` dictionary-full clear
branch of `encStep` is never taken on this run. -/
def noClearFold (m : Nat) : EncSt → List Nat → Prop
  | _, [] => True
  | st, k :: ks => st.next_code < 4096 ∧ noClearFold m (encStep m st k) ks

/-- `noClearFold` on the dictionary projection. -/
def noClearFoldD (m : Nat) : DictSt → List Nat → Prop
  | _, [] => True
  | d, k :: ks => d.next_code < 4096 ∧ noClearFoldD m (dictStep m d k) ks

theorem noClearFold_iff (m : Nat) : ∀ (ks : List Nat) (st : EncSt),
    noClearFold m st ks ↔ noClearFoldD m (dictProj st) ks := by
  intro ks
  induction ks with
  | nil => intro st; exact Iff.rfl
  | cons k ks ih =>
      intro st
      simp only [noClearFold, noClearFoldD, ih]
      rw [encStep_dictProj]
      exact Iff.rfl

theorem dictProj_foldl (m : Nat) : ∀ (ks : List Nat) (st : EncSt),
    dictProj (ks.foldl (encStep m) st) = ks.foldl (dictStep m) (dictProj st) := by
  intro ks
  induction ks with
  | nil => intro st; rfl
  | cons k ks ih => intro st; simp only [List.foldl_cons, ih, encStep_dictProj]

/-- As long as the table is not full, one `dictStep` raises `next_code` by
at most one (the hit branch leaves it unchanged, the miss branch increments
it; the clear branch needs `next_code = 4096`). -/
theorem dictStep_next_le (m : Nat) (d : DictSt) (k : Nat) (h : d.next_code < 4096) :
    (dictStep m d k).next_code ≤ d.next_code + 1 := by
  unfold dictStep
  dsimp only
  cases hf : d.code_table.find (d.ib_code <<< 8 ||| (k &&& (1 <<< m - 1))) with
  | some c => exact Nat.le_succ _
  | none =>
      dsimp only
      rw [if_neg (by omega)]
      split <;> exact Nat.le_refl _

/-- A run whose length fits inside the remaining table budget never
reaches `next_code = 4096`, and its final `next_code` respects the budget. -/
theorem noClearFoldD_budget (m : Nat) : ∀ (ks : List Nat) (d : DictSt),
    d.next_code + ks.length ≤ 4096 →
    noClearFoldD m d ks ∧
      (ks.foldl (dictStep m) d).next_code ≤ d.next_code + ks.length := by
  intro ks
  induction ks with
  | nil =>
      intro d h
      exact ⟨trivial, Nat.le_add_right _ _⟩
  | cons k ks ih =>
      intro d h
      simp only [List.length_cons] at h
      have hd : d.next_code < 4096 := by omega
      have hstep := dictStep_next_le m d k hd
      obtain ⟨h3, h4⟩ := ih (dictStep m d k) (by omega)
      refine ⟨⟨hd, h3⟩, ?_⟩
      simp only [List.foldl_cons, List.length_cons]
      omega

theorem noClearFoldD_append (m : Nat) : ∀ (a b : List Nat) (d : DictSt),
    noClearFoldD m d (a ++ b) ↔
      noClearFoldD m d a ∧ noClearFoldD m (a.foldl (dictStep m) d) b := by
  intro a
  induction a with
  | nil => intro b d; simp [noClearFoldD]
  | cons k a ih =>
      intro b d
      simp only [List.cons_append, noClearFoldD, List.foldl_cons, List.append_eq, ih, and_assoc]

/-- Chunked evaluation step for `noClearFoldD`: discharge the first `n`
symbols from a checkpointed state and continue on the rest. -/
theorem noClearFoldD_chunk (m : Nat) (l : List Nat) (n : Nat) (d d' : DictSt)
    (hfold : (l.take n).foldl (dictStep m) d = d')
    (hbud : d.next_code + n ≤ 4096)
    (hrest : noClearFoldD m d' (l.drop n)) :
    noClearFoldD m d l := by
  rw [← List.take_append_drop n l, noClearFoldD_append]
  refine ⟨(noClearFoldD_budget m _ d ?_).1, ?_⟩
  · have hlen : (l.take n).length ≤ n := by
      rw [List.length_take]
      omega
    omega
  · rw [hfold]
    exact hrest

/-- Chunked evaluation step for the fold itself. -/
theorem foldD_chunk (m : Nat) (l : List Nat) (n : Nat) (d d' : DictSt)
    (hfold : (l.take n).foldl (dictStep m) d = d') :
    l.foldl (dictStep m) d = (l.drop n).foldl (dictStep m) d' := by
  rw [← hfold, ← List.foldl_append, List.take_append_drop]

/-! ### The 4840-pixel regression stream

`c2Stream` is the regression input cited by the spec: a single 4840-pixel
row cycling through 8 distinct indices (the example program builds it as
`i & 0x7`), encoded with `minCodeSize = 3`.  The dictionary trace is
evaluated in 100-step chunks between checkpointed dictionary states; the
checkpoint tables are rebuilt from the cumulative list of `(key, code)`
insertions the run performs, assembled as a balanced merge so that forcing
a checkpoint trie stays shallow. -/

def c2Stream : List Nat := (List.range 4840).map (fun i => i % 8)

/-- Structural union of two tries (used only to assemble concrete
checkpoint tables; for disjoint key sets it coincides with repeated
insertion). -/
def NatMap.mergeMap : NatMap → NatMap → NatMap
  | .leaf, t => t
  | .node v e o, .leaf => .node v e o
  | .node v e o, .node v2 e2 o2 =>
      .node (v2.orElse (fun _ => v)) (NatMap.mergeMap e e2) (NatMap.mergeMap o o2)

/-- Balanced (fuelled) assembly of a trie from a key-value list. -/
def buildBal : Nat → List (Nat × Nat) → NatMap
  | _, [] => .leaf
  | _, [kv] => NatMap.insert .leaf kv.1 kv.2
  | 0, l => l.foldl (fun t kv => t.insert kv.1 kv.2) .leaf
  | fuel+1, l =>
      NatMap.mergeMap (buildBal fuel (l.take (l.length / 2)))
        (buildBal fuel (l.drop (l.length / 2)))

/-- The `(cur_key, code)` pairs inserted into `code_table` over the whole
encode of `c2Stream`, in insertion order (274 entries, so `next_code` tops
out at `10 + 274 = 284`). -/
def c2Pairs : List (Nat × Nat) := [
  (1, 10), (258, 11), (515, 12), (772, 13), (1029, 14), (1286, 15), (1543, 16), (1792, 17),
  (2562, 18), (3076, 19), (3590, 20), (4096, 21), (4611, 22), (3333, 23), (3847, 24), (4353, 25),
  (2819, 26), (5894, 27), (5377, 28), (6660, 29), (5127, 30), (6402, 31), (4869, 32), (6144, 33),
  (5636, 34), (7680, 35), (8709, 36), (8449, 37), (7429, 38), (9474, 39), (8198, 40), (7170, 41),
  (10247, 42), (7939, 43), (6919, 44), (11012, 45), (8961, 46), (9734, 47), (10499, 48),
  (11264, 49), (9222, 50), (12292, 51), (11778, 52), (10752, 53), (12807, 54), (11525, 55),
  (9987, 56), (12545, 57), (12039, 58), (14086, 59), (13061, 60), (14340, 61), (13315, 62),
  (14594, 63), (13569, 64), (14848, 65), (13824, 66), (16897, 67), (16641, 68), (17410, 69),
  (16386, 70), (17923, 71), (16131, 72), (18436, 73), (15876, 74), (18949, 75), (15621, 76),
  (19462, 77), (15366, 78), (19975, 79), (15111, 80), (20480, 81), (17154, 82), (18180, 83),
  (19206, 84), (20224, 85), (20995, 86), (18693, 87), (19719, 88), (20737, 89), (17667, 90),
  (22278, 91), (21761, 92), (23044, 93), (21511, 94), (22786, 95), (21253, 96), (22528, 97),
  (22020, 98), (24064, 99), (25093, 100), (24833, 101), (23813, 102), (25858, 103), (24582, 104),
  (23554, 105), (26631, 106), (24323, 107), (23303, 108), (27396, 109), (25345, 110), (26118, 111),
  (26883, 112), (27648, 113), (25606, 114), (28676, 115), (28162, 116), (27136, 117), (29191, 118),
  (27909, 119), (26371, 120), (28929, 121), (28423, 122), (30470, 123), (29445, 124), (30724, 125),
  (29699, 126), (30978, 127), (29953, 128), (31232, 129), (30208, 130), (33281, 131), (33025, 132),
  (33794, 133), (32770, 134), (34307, 135), (32515, 136), (34820, 137), (32260, 138), (35333, 139),
  (32005, 140), (35846, 141), (31750, 142), (36359, 143), (31495, 144), (36864, 145), (33538, 146),
  (34564, 147), (35590, 148), (36608, 149), (37379, 150), (35077, 151), (36103, 152), (37121, 153),
  (34051, 154), (38662, 155), (38145, 156), (39428, 157), (37895, 158), (39170, 159), (37637, 160),
  (38912, 161), (38404, 162), (40448, 163), (41477, 164), (41217, 165), (40197, 166), (42242, 167),
  (40966, 168), (39938, 169), (43015, 170), (40707, 171), (39687, 172), (43780, 173), (41729, 174),
  (42502, 175), (43267, 176), (44032, 177), (41990, 178), (45060, 179), (44546, 180), (43520, 181),
  (45575, 182), (44293, 183), (42755, 184), (45313, 185), (44807, 186), (46854, 187), (45829, 188),
  (47108, 189), (46083, 190), (47362, 191), (46337, 192), (47616, 193), (46592, 194), (49665, 195),
  (49409, 196), (50178, 197), (49154, 198), (50691, 199), (48899, 200), (51204, 201), (48644, 202),
  (51717, 203), (48389, 204), (52230, 205), (48134, 206), (52743, 207), (47879, 208), (53248, 209),
  (49922, 210), (50948, 211), (51974, 212), (52992, 213), (53763, 214), (51461, 215), (52487, 216),
  (53505, 217), (50435, 218), (55046, 219), (54529, 220), (55812, 221), (54279, 222), (55554, 223),
  (54021, 224), (55296, 225), (54788, 226), (56832, 227), (57861, 228), (57601, 229), (56581, 230),
  (58626, 231), (57350, 232), (56322, 233), (59399, 234), (57091, 235), (56071, 236), (60164, 237),
  (58113, 238), (58886, 239), (59651, 240), (60416, 241), (58374, 242), (61444, 243), (60930, 244),
  (59904, 245), (61959, 246), (60677, 247), (59139, 248), (61697, 249), (61191, 250), (63238, 251),
  (62213, 252), (63492, 253), (62467, 254), (63746, 255), (62721, 256), (64000, 257), (62976, 258),
  (66049, 259), (65793, 260), (66562, 261), (65538, 262), (67075, 263), (65283, 264), (67588, 265),
  (65028, 266), (68101, 267), (64773, 268), (68614, 269), (64518, 270), (69127, 271), (64263, 272),
  (69632, 273), (66306, 274), (67332, 275), (68358, 276), (69376, 277), (70147, 278), (67845, 279),
  (68871, 280), (69889, 281), (66819, 282), (71430, 283)]

/-- Dictionary state rebuilt from the first `n` insertions. -/
def c2Ckpt (n next ccs ib : Nat) : DictSt :=
  ⟨next, ccs, ib, buildBal 12 (c2Pairs.take n)⟩

set_option maxRecDepth 1000000 in
theorem c2_chunk1 :
    ((c2Stream.tail).take 100).foldl (dictStep 3) (c2Ckpt 0 10 4 0) = c2Ckpt 36 46 6 4 := by rfl

set_option maxRecDepth 1000000 in
theorem c2_chunk2 :
    (((c2Stream.tail.drop 100)).take 100).foldl (dictStep 3) (c2Ckpt 36 46 6 4) = c2Ckpt 52 62 6 35 := by rfl

set_option maxRecDepth 1000000 in
theorem c2_chunk3 :
    ((((c2Stream.tail.drop 100).drop 100)).take 100).foldl (dictStep 3) (c2Ckpt 52 62 6 35) = c2Ckpt 65 75 7 4 := by rfl

set_option maxRecDepth 1000000 in
theorem c2_chunk4 :
    (((((c2Stream.tail.drop 100).drop 100).drop 100)).take 100).foldl (dictStep 3) (c2Ckpt 65 75 7 4) = c2Ckpt 76 86 7 0 := by rfl

set_option maxRecDepth 1000000 in
theorem c2_chunk5 :
    ((((((c2Stream.tail.drop 100).drop 100).drop 100).drop 100)).take 100).foldl (dictStep 3) (c2Ckpt 76 86 7 0) = c2Ckpt 85 95 7 45 := by rfl

set_option maxRecDepth 1000000 in
theorem c2_chunk6 :
    (((((((c2Stream.tail.drop 100).drop 100).drop 100).drop 100).drop 100)).take 100).foldl (dictStep 3) (c2Ckpt 85 95 7 45) = c2Ckpt 93 103 7 97 := by rfl

set_option maxRecDepth 1000000 in
theorem c2_chunk7 :
    ((((((((c2Stream.tail.drop 100).drop 100).drop 100).drop 100).drop 100).drop 100)).take 100).foldl (dictStep 3) (c2Ckpt 93 103 7 97) = c2Ckpt 101 111 7 93 := by rfl

set_option maxRecDepth 1000000 in
theorem c2_chunk8 :
    (((((((((c2Stream.tail.drop 100).drop 100).drop 100).drop 100).drop 100).drop 100).drop 100)).take 100).foldl (dictStep 3) (c2Ckpt 101 111 7 93) = c2Ckpt 109 119 7 17 := by rfl

set_option maxRecDepth 1000000 in
theorem c2_chunk9 :
    ((((((((((c2Stream.tail.drop 100).drop 100).drop 100).drop 100).drop 100).drop 100).drop 100).drop 100)).take 100).foldl (dictStep 3) (c2Ckpt 109 119 7 17) = c2Ckpt 116 126 7 4 := by rfl

set_option maxRecDepth 1000000 in
theorem c2_chunk10 :
    (((((((((((c2Stream.tail.drop 100).drop 100).drop 100).drop 100).drop 100).drop 100).drop 100).drop 100).drop 100)).take 100).foldl (dictStep 3) (c2Ckpt 116 126 7 4) = c2Ckpt 122 132 8 65 := by rfl

set_option maxRecDepth 1000000 in
theorem c2_chunk11 :
    ((((((((((((c2Stream.tail.drop 100).drop 100).drop 100).drop 100).drop 100).drop 100).drop 100).drop 100).drop 100).drop 100)).take 100).foldl (dictStep 3) (c2Ckpt 122 132 8 65) = c2Ckpt 128 138 8 74 := by rfl

set_option maxRecDepth 1000000 in
theorem c2_chunk12 :
    (((((((((((((c2Stream.tail.drop 100).drop 100).drop 100).drop 100).drop 100).drop 100).drop 100).drop 100).drop 100).drop 100).drop 100)).take 100).foldl (dictStep 3) (c2Ckpt 128 138 8 74) = c2Ckpt 134 144 8 81 := by rfl

set_option maxRecDepth 1000000 in
theorem c2_chunk13 :
    ((((((((((((((c2Stream.tail.drop 100).drop 100).drop 100).drop 100).drop 100).drop 100).drop 100).drop 100).drop 100).drop 100).drop 100).drop 100)).take 100).foldl (dictStep 3) (c2Ckpt 134 144 8 81) = c2Ckpt 140 150 8 34 := by rfl

set_option maxRecDepth 1000000 in
theorem c2_chunk14 :
    (((((((((((((((c2Stream.tail.drop 100).drop 100).drop 100).drop 100).drop 100).drop 100).drop 100).drop 100).drop 100).drop 100).drop 100).drop 100).drop 100)).take 100).foldl (dictStep 3) (c2Ckpt 140 150 8 34) = c2Ckpt 145 155 8 113 := by rfl

set_option maxRecDepth 1000000 in
theorem c2_chunk15 :
    ((((((((((((((((c2Stream.tail.drop 100).drop 100).drop 100).drop 100).drop 100).drop 100).drop 100).drop 100).drop 100).drop 100).drop 100).drop 100).drop 100).drop 100)).take 100).foldl (dictStep 3) (c2Ckpt 145 155 8 113) = c2Ckpt 150 160 8 147 := by rfl

set_option maxRecDepth 1000000 in
theorem c2_chunk16 :
    (((((((((((((((((c2Stream.tail.drop 100).drop 100).drop 100).drop 100).drop 100).drop 100).drop 100).drop 100).drop 100).drop 100).drop 100).drop 100).drop 100).drop 100).drop 100)).take 100).foldl (dictStep 3) (c2Ckpt 150 160 8 147) = c2Ckpt 155 165 8 161 := by rfl

set_option maxRecDepth 1000000 in
theorem c2_chunk17 :
    ((((((((((((((((((c2Stream.tail.drop 100).drop 100).drop 100).drop 100).drop 100).drop 100).drop 100).drop 100).drop 100).drop 100).drop 100).drop 100).drop 100).drop 100).drop 100).drop 100)).take 100).foldl (dictStep 3) (c2Ckpt 155 165 8 161) = c2Ckpt 160 170 8 147 := by rfl

set_option maxRecDepth 1000000 in
theorem c2_chunk18 :
    (((((((((((((((((((c2Stream.tail.drop 100).drop 100).drop 100).drop 100).drop 100).drop 100).drop 100).drop 100).drop 100).drop 100).drop 100).drop 100).drop 100).drop 100).drop 100).drop 100).drop 100)).take 100).foldl (dictStep 3) (c2Ckpt 160 170 8 147) = c2Ckpt 165 175 8 129 := by rfl

set_option maxRecDepth 1000000 in
theorem c2_chunk19 :
    ((((((((((((((((((((c2Stream.tail.drop 100).drop 100).drop 100).drop 100).drop 100).drop 100).drop 100).drop 100).drop 100).drop 100).drop 100).drop 100).drop 100).drop 100).drop 100).drop 100).drop 100).drop 100)).take 100).foldl (dictStep 3) (c2Ckpt 165 175 8 129) = c2Ckpt 170 180 8 74 := by rfl

set_option maxRecDepth 1000000 in
theorem c2_chunk20 :
    (((((((((((((((((((((c2Stream.tail.drop 100).drop 100).drop 100).drop 100).drop 100).drop 100).drop 100).drop 100).drop 100).drop 100).drop 100).drop 100).drop 100).drop 100).drop 100).drop 100).drop 100).drop 100).drop 100)).take 100).foldl (dictStep 3) (c2Ckpt 170 180 8 74) = c2Ckpt 174 184 8 161 := by rfl

set_option maxRecDepth 1000000 in
theorem c2_chunk21 :
    ((((((((((((((((((((((c2Stream.tail.drop 100).drop 100).drop 100).drop 100).drop 100).drop 100).drop 100).drop 100).drop 100).drop 100).drop 100).drop 100).drop 100).drop 100).drop 100).drop 100).drop 100).drop 100).drop 100).drop 100)).take 100).foldl (dictStep 3) (c2Ckpt 174 184 8 161) = c2Ckpt 179 189 8 61 := by rfl

set_option maxRecDepth 1000000 in
theorem c2_chunk22 :
    (((((((((((((((((((((((c2Stream.tail.drop 100).drop 100).drop 100).drop 100).drop 100).drop 100).drop 100).drop 100).drop 100).drop 100).drop 100).drop 100).drop 100).drop 100).drop 100).drop 100).drop 100).drop 100).drop 100).drop 100).drop 100)).take 100).foldl (dictStep 3) (c2Ckpt 179 189 8 61) = c2Ckpt 183 193 8 129 := by rfl

set_option maxRecDepth 1000000 in
theorem c2_chunk23 :
    ((((((((((((((((((((((((c2Stream.tail.drop 100).drop 100).drop 100).drop 100).drop 100).drop 100).drop 100).drop 100).drop 100).drop 100).drop 100).drop 100).drop 100).drop 100).drop 100).drop 100).drop 100).drop 100).drop 100).drop 100).drop 100).drop 100)).take 100).foldl (dictStep 3) (c2Ckpt 183 193 8 129) = c2Ckpt 187 197 8 157 := by rfl

set_option maxRecDepth 1000000 in
theorem c2_chunk24 :
    (((((((((((((((((((((((((c2Stream.tail.drop 100).drop 100).drop 100).drop 100).drop 100).drop 100).drop 100).drop 100).drop 100).drop 100).drop 100).drop 100).drop 100).drop 100).drop 100).drop 100).drop 100).drop 100).drop 100).drop 100).drop 100).drop 100).drop 100)).take 100).foldl (dictStep 3) (c2Ckpt 187 197 8 157) = c2Ckpt 191 201 8 177 := by rfl

set_option maxRecDepth 1000000 in
theorem c2_chunk25 :
    ((((((((((((((((((((((((((c2Stream.tail.drop 100).drop 100).drop 100).drop 100).drop 100).drop 100).drop 100).drop 100).drop 100).drop 100).drop 100).drop 100).drop 100).drop 100).drop 100).drop 100).drop 100).drop 100).drop 100).drop 100).drop 100).drop 100).drop 100).drop 100)).take 100).foldl (dictStep 3) (c2Ckpt 191 201 8 177) = c2Ckpt 195 205 8 189 := by rfl

set_option maxRecDepth 1000000 in
theorem c2_chunk26 :
    (((((((((((((((((((((((((((c2Stream.tail.drop 100).drop 100).drop 100).drop 100).drop 100).drop 100).drop 100).drop 100).drop 100).drop 100).drop 100).drop 100).drop 100).drop 100).drop 100).drop 100).drop 100).drop 100).drop 100).drop 100).drop 100).drop 100).drop 100).drop 100).drop 100)).take 100).foldl (dictStep 3) (c2Ckpt 195 205 8 189) = c2Ckpt 200 210 8 0 := by rfl

set_option maxRecDepth 1000000 in
theorem c2_chunk27 :
    ((((((((((((((((((((((((((((c2Stream.tail.drop 100).drop 100).drop 100).drop 100).drop 100).drop 100).drop 100).drop 100).drop 100).drop 100).drop 100).drop 100).drop 100).drop 100).drop 100).drop 100).drop 100).drop 100).drop 100).drop 100).drop 100).drop 100).drop 100).drop 100).drop 100).drop 100)).take 100).foldl (dictStep 3) (c2Ckpt 200 210 8 0) = c2Ckpt 203 213 8 179 := by rfl

set_option maxRecDepth 1000000 in
theorem c2_chunk28 :
    (((((((((((((((((((((((((((((c2Stream.tail.drop 100).drop 100).drop 100).drop 100).drop 100).drop 100).drop 100).drop 100).drop 100).drop 100).drop 100).drop 100).drop 100).drop 100).drop 100).drop 100).drop 100).drop 100).drop 100).drop 100).drop 100).drop 100).drop 100).drop 100).drop 100).drop 100).drop 100)).take 100).foldl (dictStep 3) (c2Ckpt 203 213 8 179) = c2Ckpt 207 217 8 145 := by rfl

set_option maxRecDepth 1000000 in
theorem c2_chunk29 :
    ((((((((((((((((((((((((((((((c2Stream.tail.drop 100).drop 100).drop 100).drop 100).drop 100).drop 100).drop 100).drop 100).drop 100).drop 100).drop 100).drop 100).drop 100).drop 100).drop 100).drop 100).drop 100).drop 100).drop 100).drop 100).drop 100).drop 100).drop 100).drop 100).drop 100).drop 100).drop 100).drop 100)).take 100).foldl (dictStep 3) (c2Ckpt 207 217 8 145) = c2Ckpt 211 221 8 93 := by rfl

set_option maxRecDepth 1000000 in
theorem c2_chunk30 :
    (((((((((((((((((((((((((((((((c2Stream.tail.drop 100).drop 100).drop 100).drop 100).drop 100).drop 100).drop 100).drop 100).drop 100).drop 100).drop 100).drop 100).drop 100).drop 100).drop 100).drop 100).drop 100).drop 100).drop 100).drop 100).drop 100).drop 100).drop 100).drop 100).drop 100).drop 100).drop 100).drop 100).drop 100)).take 100).foldl (dictStep 3) (c2Ckpt 211 221 8 93) = c2Ckpt 215 225 8 33 := by rfl

set_option maxRecDepth 1000000 in
theorem c2_chunk31 :
    ((((((((((((((((((((((((((((((((c2Stream.tail.drop 100).drop 100).drop 100).drop 100).drop 100).drop 100).drop 100).drop 100).drop 100).drop 100).drop 100).drop 100).drop 100).drop 100).drop 100).drop 100).drop 100).drop 100).drop 100).drop 100).drop 100).drop 100).drop 100).drop 100).drop 100).drop 100).drop 100).drop 100).drop 100).drop 100)).take 100).foldl (dictStep 3) (c2Ckpt 215 225 8 33) = c2Ckpt 218 228 8 162 := by rfl

set_option maxRecDepth 1000000 in
theorem c2_chunk32 :
    (((((((((((((((((((((((((((((((((c2Stream.tail.drop 100).drop 100).drop 100).drop 100).drop 100).drop 100).drop 100).drop 100).drop 100).drop 100).drop 100).drop 100).drop 100).drop 100).drop 100).drop 100).drop 100).drop 100).drop 100).drop 100).drop 100).drop 100).drop 100).drop 100).drop 100).drop 100).drop 100).drop 100).drop 100).drop 100).drop 100)).take 100).foldl (dictStep 3) (c2Ckpt 218 228 8 162) = c2Ckpt 222 232 8 53 := by rfl

set_option maxRecDepth 1000000 in
theorem c2_chunk33 :
    ((((((((((((((((((((((((((((((((((c2Stream.tail.drop 100).drop 100).drop 100).drop 100).drop 100).drop 100).drop 100).drop 100).drop 100).drop 100).drop 100).drop 100).drop 100).drop 100).drop 100).drop 100).drop 100).drop 100).drop 100).drop 100).drop 100).drop 100).drop 100).drop 100).drop 100).drop 100).drop 100).drop 100).drop 100).drop 100).drop 100).drop 100)).take 100).foldl (dictStep 3) (c2Ckpt 222 232 8 53) = c2Ckpt 225 235 8 173 := by rfl

set_option maxRecDepth 1000000 in
theorem c2_chunk34 :
    (((((((((((((((((((((((((((((((((((c2Stream.tail.drop 100).drop 100).drop 100).drop 100).drop 100).drop 100).drop 100).drop 100).drop 100).drop 100).drop 100).drop 100).drop 100).drop 100).drop 100).drop 100).drop 100).drop 100).drop 100).drop 100).drop 100).drop 100).drop 100).drop 100).drop 100).drop 100).drop 100).drop 100).drop 100).drop 100).drop 100).drop 100).drop 100)).take 100).foldl (dictStep 3) (c2Ckpt 225 235 8 173) = c2Ckpt 229 239 8 65 := by rfl

set_option maxRecDepth 1000000 in
theorem c2_chunk35 :
    ((((((((((((((((((((((((((((((((((((c2Stream.tail.drop 100).drop 100).drop 100).drop 100).drop 100).drop 100).drop 100).drop 100).drop 100).drop 100).drop 100).drop 100).drop 100).drop 100).drop 100).drop 100).drop 100).drop 100).drop 100).drop 100).drop 100).drop 100).drop 100).drop 100).drop 100).drop 100).drop 100).drop 100).drop 100).drop 100).drop 100).drop 100).drop 100).drop 100)).take 100).foldl (dictStep 3) (c2Ckpt 229 239 8 65) = c2Ckpt 232 242 8 162 := by rfl

set_option maxRecDepth 1000000 in
theorem c2_chunk36 :
    (((((((((((((((((((((((((((((((((((((c2Stream.tail.drop 100).drop 100).drop 100).drop 100).drop 100).drop 100).drop 100).drop 100).drop 100).drop 100).drop 100).drop 100).drop 100).drop 100).drop 100).drop 100).drop 100).drop 100).drop 100).drop 100).drop 100).drop 100).drop 100).drop 100).drop 100).drop 100).drop 100).drop 100).drop 100).drop 100).drop 100).drop 100).drop 100).drop 100).drop 100)).take 100).foldl (dictStep 3) (c2Ckpt 232 242 8 162) = c2Ckpt 236 246 8 0 := by rfl

set_option maxRecDepth 1000000 in
theorem c2_chunk37 :
    ((((((((((((((((((((((((((((((((((((((c2Stream.tail.drop 100).drop 100).drop 100).drop 100).drop 100).drop 100).drop 100).drop 100).drop 100).drop 100).drop 100).drop 100).drop 100).drop 100).drop 100).drop 100).drop 100).drop 100).drop 100).drop 100).drop 100).drop 100).drop 100).drop 100).drop 100).drop 100).drop 100).drop 100).drop 100).drop 100).drop 100).drop 100).drop 100).drop 100).drop 100).drop 100)).take 100).foldl (dictStep 3) (c2Ckpt 236 246 8 0) = c2Ckpt 239 249 8 73 := by rfl

set_option maxRecDepth 1000000 in
theorem c2_chunk38 :
    (((((((((((((((((((((((((((((((((((((((c2Stream.tail.drop 100).drop 100).drop 100).drop 100).drop 100).drop 100).drop 100).drop 100).drop 100).drop 100).drop 100).drop 100).drop 100).drop 100).drop 100).drop 100).drop 100).drop 100).drop 100).drop 100).drop 100).drop 100).drop 100).drop 100).drop 100).drop 100).drop 100).drop 100).drop 100).drop 100).drop 100).drop 100).drop 100).drop 100).drop 100).drop 100).drop 100)).take 100).foldl (dictStep 3) (c2Ckpt 239 249 8 73) = c2Ckpt 242 252 8 149 := by rfl

set_option maxRecDepth 1000000 in
theorem c2_chunk39 :
    ((((((((((((((((((((((((((((((((((((((((c2Stream.tail.drop 100).drop 100).drop 100).drop 100).drop 100).drop 100).drop 100).drop 100).drop 100).drop 100).drop 100).drop 100).drop 100).drop 100).drop 100).drop 100).drop 100).drop 100).drop 100).drop 100).drop 100).drop 100).drop 100).drop 100).drop 100).drop 100).drop 100).drop 100).drop 100).drop 100).drop 100).drop 100).drop 100).drop 100).drop 100).drop 100).drop 100).drop 100)).take 100).foldl (dictStep 3) (c2Ckpt 242 252 8 149) = c2Ckpt 245 255 8 201 := by rfl

set_option maxRecDepth 1000000 in
theorem c2_chunk40 :
    (((((((((((((((((((((((((((((((((((((((((c2Stream.tail.drop 100).drop 100).drop 100).drop 100).drop 100).drop 100).drop 100).drop 100).drop 100).drop 100).drop 100).drop 100).drop 100).drop 100).drop 100).drop 100).drop 100).drop 100).drop 100).drop 100).drop 100).drop 100).drop 100).drop 100).drop 100).drop 100).drop 100).drop 100).drop 100).drop 100).drop 100).drop 100).drop 100).drop 100).drop 100).drop 100).drop 100).drop 100).drop 100)).take 100).foldl (dictStep 3) (c2Ckpt 245 255 8 201) = c2Ckpt 249 259 9 0 := by rfl

set_option maxRecDepth 1000000 in
theorem c2_chunk41 :
    ((((((((((((((((((((((((((((((((((((((((((c2Stream.tail.drop 100).drop 100).drop 100).drop 100).drop 100).drop 100).drop 100).drop 100).drop 100).drop 100).drop 100).drop 100).drop 100).drop 100).drop 100).drop 100).drop 100).drop 100).drop 100).drop 100).drop 100).drop 100).drop 100).drop 100).drop 100).drop 100).drop 100).drop 100).drop 100).drop 100).drop 100).drop 100).drop 100).drop 100).drop 100).drop 100).drop 100).drop 100).drop 100).drop 100)).take 100).foldl (dictStep 3) (c2Ckpt 249 259 9 0) = c2Ckpt 252 262 9 19 := by rfl

set_option maxRecDepth 1000000 in
theorem c2_chunk42 :
    (((((((((((((((((((((((((((((((((((((((((((c2Stream.tail.drop 100).drop 100).drop 100).drop 100).drop 100).drop 100).drop 100).drop 100).drop 100).drop 100).drop 100).drop 100).drop 100).drop 100).drop 100).drop 100).drop 100).drop 100).drop 100).drop 100).drop 100).drop 100).drop 100).drop 100).drop 100).drop 100).drop 100).drop 100).drop 100).drop 100).drop 100).drop 100).drop 100).drop 100).drop 100).drop 100).drop 100).drop 100).drop 100).drop 100).drop 100)).take 100).foldl (dictStep 3) (c2Ckpt 252 262 9 19) = c2Ckpt 255 265 9 49 := by rfl

set_option maxRecDepth 1000000 in
theorem c2_chunk43 :
    ((((((((((((((((((((((((((((((((((((((((((((c2Stream.tail.drop 100).drop 100).drop 100).drop 100).drop 100).drop 100).drop 100).drop 100).drop 100).drop 100).drop 100).drop 100).drop 100).drop 100).drop 100).drop 100).drop 100).drop 100).drop 100).drop 100).drop 100).drop 100).drop 100).drop 100).drop 100).drop 100).drop 100).drop 100).drop 100).drop 100).drop 100).drop 100).drop 100).drop 100).drop 100).drop 100).drop 100).drop 100).drop 100).drop 100).drop 100).drop 100)).take 100).foldl (dictStep 3) (c2Ckpt 255 265 9 49) = c2Ckpt 258 268 9 61 := by rfl

set_option maxRecDepth 1000000 in
theorem c2_chunk44 :
    (((((((((((((((((((((((((((((((((((((((((((((c2Stream.tail.drop 100).drop 100).drop 100).drop 100).drop 100).drop 100).drop 100).drop 100).drop 100).drop 100).drop 100).drop 100).drop 100).drop 100).drop 100).drop 100).drop 100).drop 100).drop 100).drop 100).drop 100).drop 100).drop 100).drop 100).drop 100).drop 100).drop 100).drop 100).drop 100).drop 100).drop 100).drop 100).drop 100).drop 100).drop 100).drop 100).drop 100).drop 100).drop 100).drop 100).drop 100).drop 100).drop 100)).take 100).foldl (dictStep 3) (c2Ckpt 258 268 9 61) = c2Ckpt 261 271 9 85 := by rfl

set_option maxRecDepth 1000000 in
theorem c2_chunk45 :
    ((((((((((((((((((((((((((((((((((((((((((((((c2Stream.tail.drop 100).drop 100).drop 100).drop 100).drop 100).drop 100).drop 100).drop 100).drop 100).drop 100).drop 100).drop 100).drop 100).drop 100).drop 100).drop 100).drop 100).drop 100).drop 100).drop 100).drop 100).drop 100).drop 100).drop 100).drop 100).drop 100).drop 100).drop 100).drop 100).drop 100).drop 100).drop 100).drop 100).drop 100).drop 100).drop 100).drop 100).drop 100).drop 100).drop 100).drop 100).drop 100).drop 100).drop 100)).take 100).foldl (dictStep 3) (c2Ckpt 261 271 9 85) = c2Ckpt 264 274 9 98 := by rfl

set_option maxRecDepth 1000000 in
theorem c2_chunk46 :
    (((((((((((((((((((((((((((((((((((((((((((((((c2Stream.tail.drop 100).drop 100).drop 100).drop 100).drop 100).drop 100).drop 100).drop 100).drop 100).drop 100).drop 100).drop 100).drop 100).drop 100).drop 100).drop 100).drop 100).drop 100).drop 100).drop 100).drop 100).drop 100).drop 100).drop 100).drop 100).drop 100).drop 100).drop 100).drop 100).drop 100).drop 100).drop 100).drop 100).drop 100).drop 100).drop 100).drop 100).drop 100).drop 100).drop 100).drop 100).drop 100).drop 100).drop 100).drop 100)).take 100).foldl (dictStep 3) (c2Ckpt 264 274 9 98) = c2Ckpt 267 277 9 85 := by rfl

set_option maxRecDepth 1000000 in
theorem c2_chunk47 :
    ((((((((((((((((((((((((((((((((((((((((((((((((c2Stream.tail.drop 100).drop 100).drop 100).drop 100).drop 100).drop 100).drop 100).drop 100).drop 100).drop 100).drop 100).drop 100).drop 100).drop 100).drop 100).drop 100).drop 100).drop 100).drop 100).drop 100).drop 100).drop 100).drop 100).drop 100).drop 100).drop 100).drop 100).drop 100).drop 100).drop 100).drop 100).drop 100).drop 100).drop 100).drop 100).drop 100).drop 100).drop 100).drop 100).drop 100).drop 100).drop 100).drop 100).drop 100).drop 100).drop 100)).take 100).foldl (dictStep 3) (c2Ckpt 267 277 9 85) = c2Ckpt 270 280 9 61 := by rfl

set_option maxRecDepth 1000000 in
theorem c2_chunk48 :
    (((((((((((((((((((((((((((((((((((((((((((((((((c2Stream.tail.drop 100).drop 100).drop 100).drop 100).drop 100).drop 100).drop 100).drop 100).drop 100).drop 100).drop 100).drop 100).drop 100).drop 100).drop 100).drop 100).drop 100).drop 100).drop 100).drop 100).drop 100).drop 100).drop 100).drop 100).drop 100).drop 100).drop 100).drop 100).drop 100).drop 100).drop 100).drop 100).drop 100).drop 100).drop 100).drop 100).drop 100).drop 100).drop 100).drop 100).drop 100).drop 100).drop 100).drop 100).drop 100).drop 100).drop 100)).take 100).foldl (dictStep 3) (c2Ckpt 270 280 9 61) = c2Ckpt 273 283 9 49 := by rfl

set_option maxRecDepth 1000000 in
theorem c2_chunk49 :
    (((((((((((((((((((((((((((((((((((((((((((((((((c2Stream.tail.drop 100).drop 100).drop 100).drop 100).drop 100).drop 100).drop 100).drop 100).drop 100).drop 100).drop 100).drop 100).drop 100).drop 100).drop 100).drop 100).drop 100).drop 100).drop 100).drop 100).drop 100).drop 100).drop 100).drop 100).drop 100).drop 100).drop 100).drop 100).drop 100).drop 100).drop 100).drop 100).drop 100).drop 100).drop 100).drop 100).drop 100).drop 100).drop 100).drop 100).drop 100).drop 100).drop 100).drop 100).drop 100).drop 100).drop 100).drop 100)).foldl (dictStep 3) (c2Ckpt 273 283 9 49) = c2Ckpt 274 284 9 79 := by rfl

set_option maxRecDepth 1000000 in
/-- The dictionary trace of the whole 4840-symbol encode: no state ever
reaches `next_code = 4096`, and the final dictionary state is checkpoint 49
(`next_code = 284`). -/
theorem c2_traceD :
    noClearFoldD 3 (c2Ckpt 0 10 4 0) c2Stream.tail ∧
    c2Stream.tail.foldl (dictStep 3) (c2Ckpt 0 10 4 0) = c2Ckpt 274 284 9 79 := by
  constructor
  · refine noClearFoldD_chunk 3 _ 100 _ _ c2_chunk1 (by decide) ?_
    refine noClearFoldD_chunk 3 _ 100 _ _ c2_chunk2 (by decide) ?_
    refine noClearFoldD_chunk 3 _ 100 _ _ c2_chunk3 (by decide) ?_
    refine noClearFoldD_chunk 3 _ 100 _ _ c2_chunk4 (by decide) ?_
    refine noClearFoldD_chunk 3 _ 100 _ _ c2_chunk5 (by decide) ?_
    refine noClearFoldD_chunk 3 _ 100 _ _ c2_chunk6 (by decide) ?_
    refine noClearFoldD_chunk 3 _ 100 _ _ c2_chunk7 (by decide) ?_
    refine noClearFoldD_chunk 3 _ 100 _ _ c2_chunk8 (by decide) ?_
    refine noClearFoldD_chunk 3 _ 100 _ _ c2_chunk9 (by decide) ?_
    refine noClearFoldD_chunk 3 _ 100 _ _ c2_chunk10 (by decide) ?_
    refine noClearFoldD_chunk 3 _ 100 _ _ c2_chunk11 (by decide) ?_
    refine noClearFoldD_chunk 3 _ 100 _ _ c2_chunk12 (by decide) ?_
    refine noClearFoldD_chunk 3 _ 100 _ _ c2_chunk13 (by decide) ?_
    refine noClearFoldD_chunk 3 _ 100 _ _ c2_chunk14 (by decide) ?_
    refine noClearFoldD_chunk 3 _ 100 _ _ c2_chunk15 (by decide) ?_
    refine noClearFoldD_chunk 3 _ 100 _ _ c2_chunk16 (by decide) ?_
    refine noClearFoldD_chunk 3 _ 100 _ _ c2_chunk17 (by decide) ?_
    refine noClearFoldD_chunk 3 _ 100 _ _ c2_chunk18 (by decide) ?_
    refine noClearFoldD_chunk 3 _ 100 _ _ c2_chunk19 (by decide) ?_
    refine noClearFoldD_chunk 3 _ 100 _ _ c2_chunk20 (by decide) ?_
    refine noClearFoldD_chunk 3 _ 100 _ _ c2_chunk21 (by decide) ?_
    refine noClearFoldD_chunk 3 _ 100 _ _ c2_chunk22 (by decide) ?_
    refine noClearFoldD_chunk 3 _ 100 _ _ c2_chunk23 (by decide) ?_
    refine noClearFoldD_chunk 3 _ 100 _ _ c2_chunk24 (by decide) ?_
    refine noClearFoldD_chunk 3 _ 100 _ _ c2_chunk25 (by decide) ?_
    refine noClearFoldD_chunk 3 _ 100 _ _ c2_chunk26 (by decide) ?_
    refine noClearFoldD_chunk 3 _ 100 _ _ c2_chunk27 (by decide) ?_
    refine noClearFoldD_chunk 3 _ 100 _ _ c2_chunk28 (by decide) ?_
    refine noClearFoldD_chunk 3 _ 100 _ _ c2_chunk29 (by decide) ?_
    refine noClearFoldD_chunk 3 _ 100 _ _ c2_chunk30 (by decide) ?_
    refine noClearFoldD_chunk 3 _ 100 _ _ c2_chunk31 (by decide) ?_
    refine noClearFoldD_chunk 3 _ 100 _ _ c2_chunk32 (by decide) ?_
    refine noClearFoldD_chunk 3 _ 100 _ _ c2_chunk33 (by decide) ?_
    refine noClearFoldD_chunk 3 _ 100 _ _ c2_chunk34 (by decide) ?_
    refine noClearFoldD_chunk 3 _ 100 _ _ c2_chunk35 (by decide) ?_
    refine noClearFoldD_chunk 3 _ 100 _ _ c2_chunk36 (by decide) ?_
    refine noClearFoldD_chunk 3 _ 100 _ _ c2_chunk37 (by decide) ?_
    refine noClearFoldD_chunk 3 _ 100 _ _ c2_chunk38 (by decide) ?_
    refine noClearFoldD_chunk 3 _ 100 _ _ c2_chunk39 (by decide) ?_
    refine noClearFoldD_chunk 3 _ 100 _ _ c2_chunk40 (by decide) ?_
    refine noClearFoldD_chunk 3 _ 100 _ _ c2_chunk41 (by decide) ?_
    refine noClearFoldD_chunk 3 _ 100 _ _ c2_chunk42 (by decide) ?_
    refine noClearFoldD_chunk 3 _ 100 _ _ c2_chunk43 (by decide) ?_
    refine noClearFoldD_chunk 3 _ 100 _ _ c2_chunk44 (by decide) ?_
    refine noClearFoldD_chunk 3 _ 100 _ _ c2_chunk45 (by decide) ?_
    refine noClearFoldD_chunk 3 _ 100 _ _ c2_chunk46 (by decide) ?_
    refine noClearFoldD_chunk 3 _ 100 _ _ c2_chunk47 (by decide) ?_
    refine noClearFoldD_chunk 3 _ 100 _ _ c2_chunk48 (by decide) ?_
    exact (noClearFoldD_budget 3 _ _ (by decide)).1
  · rw [foldD_chunk 3 _ 100 _ _ c2_chunk1, foldD_chunk 3 _ 100 _ _ c2_chunk2, foldD_chunk 3 _ 100 _ _ c2_chunk3, foldD_chunk 3 _ 100 _ _ c2_chunk4, foldD_chunk 3 _ 100 _ _ c2_chunk5, foldD_chunk 3 _ 100 _ _ c2_chunk6, foldD_chunk 3 _ 100 _ _ c2_chunk7, foldD_chunk 3 _ 100 _ _ c2_chunk8, foldD_chunk 3 _ 100 _ _ c2_chunk9, foldD_chunk 3 _ 100 _ _ c2_chunk10, foldD_chunk 3 _ 100 _ _ c2_chunk11, foldD_chunk 3 _ 100 _ _ c2_chunk12, foldD_chunk 3 _ 100 _ _ c2_chunk13, foldD_chunk 3 _ 100 _ _ c2_chunk14, foldD_chunk 3 _ 100 _ _ c2_chunk15, foldD_chunk 3 _ 100 _ _ c2_chunk16, foldD_chunk 3 _ 100 _ _ c2_chunk17, foldD_chunk 3 _ 100 _ _ c2_chunk18, foldD_chunk 3 _ 100 _ _ c2_chunk19, foldD_chunk 3 _ 100 _ _ c2_chunk20, foldD_chunk 3 _ 100 _ _ c2_chunk21, foldD_chunk 3 _ 100 _ _ c2_chunk22, foldD_chunk 3 _ 100 _ _ c2_chunk23, foldD_chunk 3 _ 100 _ _ c2_chunk24, foldD_chunk 3 _ 100 _ _ c2_chunk25, foldD_chunk 3 _ 100 _ _ c2_chunk26, foldD_chunk 3 _ 100 _ _ c2_chunk27, foldD_chunk 3 _ 100 _ _ c2_chunk28, foldD_chunk 3 _ 100 _ _ c2_chunk29, foldD_chunk 3 _ 100 _ _ c2_chunk30, foldD_chunk 3 _ 100 _ _ c2_chunk31, foldD_chunk 3 _ 100 _ _ c2_chunk32, foldD_chunk 3 _ 100 _ _ c2_chunk33, foldD_chunk 3 _ 100 _ _ c2_chunk34, foldD_chunk 3 _ 100 _ _ c2_chunk35, foldD_chunk 3 _ 100 _ _ c2_chunk36, foldD_chunk 3 _ 100 _ _ c2_chunk37, foldD_chunk 3 _ 100 _ _ c2_chunk38, foldD_chunk 3 _ 100 _ _ c2_chunk39, foldD_chunk 3 _ 100 _ _ c2_chunk40, foldD_chunk 3 _ 100 _ _ c2_chunk41, foldD_chunk 3 _ 100 _ _ c2_chunk42, foldD_chunk 3 _ 100 _ _ c2_chunk43, foldD_chunk 3 _ 100 _ _ c2_chunk44, foldD_chunk 3 _ 100 _ _ c2_chunk45, foldD_chunk 3 _ 100 _ _ c2_chunk46, foldD_chunk 3 _ 100 _ _ c2_chunk47, foldD_chunk 3 _ 100 _ _ c2_chunk48]
    exact c2_chunk49

set_option maxRecDepth 100000 in
theorem c2_encInit_proj : dictProj (encInit 0 3 c2Stream) = c2Ckpt 0 10 4 0 := by rfl

set_option maxRecDepth 100000 in
/-- Encoder-level version of the trace result: the run over `c2Stream`
never reaches `next_code = 4096`. -/
theorem c2_noClear_enc : noClearFold 3 (encInit 0 3 c2Stream) c2Stream.tail := by
  rw [noClearFold_iff, c2_encInit_proj]
  exact c2_traceD.1

theorem dictProj_next_eq (st : EncSt) : (dictProj st).next_code = st.next_code := rfl

set_option maxRecDepth 100000 in
/-- Encoder-level final `next_code` of the `c2Stream` run. -/
theorem c2_final_next :
    (c2Stream.tail.foldl (encStep 3) (encInit 0 3 c2Stream)).next_code = 284 := by
  have h : dictProj (c2Stream.tail.foldl (encStep 3) (encInit 0 3 c2Stream)) =
      c2Ckpt 274 284 9 79 := by
    rw [dictProj_foldl, c2_encInit_proj]
    exact c2_traceD.2
  have h2 := congrArg DictSt.next_code h
  rw [dictProj_next_eq] at h2
  rw [h2]
  rfl

theorem NatMap.findAux_leaf (fuel k : Nat) : NatMap.findAux fuel NatMap.leaf k = none := by
  cases fuel <;> cases k <;> rfl

/-- A lookup in a trie after an insertion returns either the inserted value
or whatever the lookup returned before. -/
theorem NatMap.findAux_insertAux_cases (fuel : Nat) :
    ∀ (t : NatMap) (k v k2 v2 : Nat),
      NatMap.findAux fuel (NatMap.insertAux fuel t k v) k2 = some v2 →
      v2 = v ∨ NatMap.findAux fuel t k2 = some v2 := by
  induction fuel with
  | zero =>
      intro t k v k2 v2 h
      match t, k, k2 with
      | .leaf, 0, 0 =>
          simp only [NatMap.insertAux, NatMap.findAux, Option.some.injEq] at h
          exact Or.inl h.symm
      | .node w e o, 0, 0 =>
          simp only [NatMap.insertAux, NatMap.findAux, Option.some.injEq] at h
          exact Or.inl h.symm
      | .leaf, 0, k2+1 =>
          exact absurd h (by simp [NatMap.insertAux, NatMap.findAux])
      | .node w e o, 0, k2+1 =>
          exact absurd h (by simp [NatMap.insertAux, NatMap.findAux])
      | .leaf, k+1, k2 => exact Or.inr h
      | .node w e o, k+1, k2 => exact Or.inr h
  | succ n ih =>
      intro t k v k2 v2 h
      match t, k, k2 with
      | .leaf, 0, 0 =>
          simp only [NatMap.insertAux, NatMap.findAux, Option.some.injEq] at h
          exact Or.inl h.symm
      | .node w e o, 0, 0 =>
          simp only [NatMap.insertAux, NatMap.findAux, Option.some.injEq] at h
          exact Or.inl h.symm
      | .leaf, 0, k2+1 =>
          refine absurd h ?_
          by_cases hp : (k2+1) % 2 = 0 <;>
            simp [NatMap.insertAux, NatMap.findAux, hp, NatMap.findAux_leaf]
      | .node w e o, 0, k2+1 =>
          right
          by_cases hp : (k2+1) % 2 = 0 <;>
            simp only [NatMap.insertAux, NatMap.findAux, hp, if_true, if_false,
              reduceIte] at h ⊢ <;>
            simpa [hp] using h
      | .leaf, k+1, 0 =>
          refine absurd h ?_
          by_cases hp : (k+1) % 2 = 0 <;>
            simp [NatMap.insertAux, NatMap.findAux, hp]
      | .node w e o, k+1, 0 =>
          right
          by_cases hp : (k+1) % 2 = 0 <;>
            simp only [NatMap.insertAux, hp] at h <;>
            simpa [NatMap.findAux, hp] using h
      | .leaf, k+1, k2+1 =>
          by_cases hpk : (k+1) % 2 = 0 <;> by_cases hpk2 : (k2+1) % 2 = 0 <;>
            simp only [NatMap.insertAux, NatMap.findAux, hpk, hpk2] at h <;>
            simp only [if_true, if_false, reduceIte] at h
          · rcases ih .leaf ((k+1)/2) v ((k2+1)/2) v2 h with he | he
            · exact Or.inl he
            · rw [NatMap.findAux_leaf] at he
              exact Option.noConfusion he
          · exact Option.noConfusion h
          · exact Option.noConfusion h
          · rcases ih .leaf ((k+1)/2) v ((k2+1)/2) v2 h with he | he
            · exact Or.inl he
            · rw [NatMap.findAux_leaf] at he
              exact Option.noConfusion he
      | .node w e o, k+1, k2+1 =>
          by_cases hpk : (k+1) % 2 = 0 <;> by_cases hpk2 : (k2+1) % 2 = 0 <;>
            simp only [NatMap.insertAux, NatMap.findAux, hpk, hpk2] at h ⊢ <;>
            simp only [if_true, if_false, reduceIte] at h ⊢
          · rcases ih e ((k+1)/2) v ((k2+1)/2) v2 h with he | he
            · exact Or.inl he
            · exact Or.inr he
          · exact Or.inr h
          · exact Or.inr h
          · rcases ih o ((k+1)/2) v ((k2+1)/2) v2 h with he | he
            · exact Or.inl he
            · exact Or.inr he

theorem NatMap.find_insert_cases (t : NatMap) (k v k2 v2 : Nat)
    (h : (t.insert k v).find k2 = some v2) : v2 = v ∨ t.find k2 = some v2 :=
  NatMap.findAux_insertAux_cases natMapFuel t k v k2 v2 h

/-- The code-table invariant claimed by the spec: `next_code` never exceeds
4096 and every code value stored in the table is below 4096. -/
def EncTableBound (st : EncSt) : Prop :=
  st.next_code ≤ 4096 ∧ ∀ k v, st.code_table.find k = some v → v < 4096

def DictTableBound (d : DictSt) : Prop :=
  d.next_code ≤ 4096 ∧ ∀ k v, d.code_table.find k = some v → v < 4096

theorem dictStep_bound (m : Nat) (hm : m ≤ 8) (d : DictSt) (k : Nat)
    (h : DictTableBound d) : DictTableBound (dictStep m d k) := by
  obtain ⟨h1, h2⟩ := h
  unfold dictStep
  dsimp only
  cases hf : d.code_table.find (d.ib_code <<< 8 ||| (k &&& (1 <<< m - 1))) with
  | some c => exact ⟨h1, h2⟩
  | none =>
      dsimp only
      by_cases hc : d.next_code = 4096
      · simp only [if_pos hc]
        constructor
        · have hp : (1:Nat) <<< m ≤ 256 := by
            rw [Nat.one_shiftLeft]
            exact le_trans (Nat.pow_le_pow_right (by norm_num) hm) (by norm_num)
          show (1 <<< m) + 1 + 1 ≤ 4096
          omega
        · intro k2 v2 hfind
          rw [show (NatMap.find NatMap.leaf k2 : Option Nat) = none from
            NatMap.findAux_leaf natMapFuel k2] at hfind
          exact Option.noConfusion hfind
      · simp only [if_neg hc]
        by_cases hg : 1 <<< d.cur_code_size ≤ d.next_code
        · simp only [if_pos hg]
          constructor
          · show d.next_code + 1 ≤ 4096
            omega
          · intro k2 v2 hfind
            rcases NatMap.find_insert_cases _ _ _ _ _ hfind with he | he
            · omega
            · exact h2 _ _ he
        · simp only [if_neg hg]
          constructor
          · show d.next_code + 1 ≤ 4096
            omega
          · intro k2 v2 hfind
            rcases NatMap.find_insert_cases _ _ _ _ _ hfind with he | he
            · omega
            · exact h2 _ _ he

/-- One encoder step preserves the code-table invariant (for the
`min_code_size` range the writer can produce: a palette of at most 256
colors gives `min_code_size ≤ 8`). -/
theorem encStep_bound (m : Nat) (hm : m ≤ 8) (st : EncSt) (k : Nat)
    (h : EncTableBound st) : EncTableBound (encStep m st k) := by
  have hd : DictTableBound (dictProj (encStep m st k)) := by
    rw [encStep_dictProj]
    exact dictStep_bound m hm (dictProj st) k h
  exact hd

/-- The invariant holds right after the encoder's initialisation. -/
theorem encInit_bound (p m : Nat) (s : List Nat) (hm : m ≤ 8) :
    EncTableBound (encInit p m s) := by
  have h1 : dictProj (encInit p m s) =
      ⟨(1 <<< m) + 1 + 1, m + 1, (s.getD 0 0) &&& ((1 <<< m) - 1), .leaf⟩ := by
    unfold encInit emit_code emit_bytes_to_buffer
    dsimp only
    rw [emitLoop_dictProj]
    try rfl
  constructor
  · show (dictProj (encInit p m s)).next_code ≤ 4096
    rw [h1]
    have hp : (1:Nat) <<< m ≤ 256 := by
      rw [Nat.one_shiftLeft]
      exact le_trans (Nat.pow_le_pow_right (by norm_num) hm) (by norm_num)
    show (1 <<< m) + 1 + 1 ≤ 4096
    omega
  · intro k v hfind
    have hct : (encInit p m s).code_table = NatMap.leaf :=
      congrArg DictSt.code_table h1
    rw [hct] at hfind
    rw [show (NatMap.find NatMap.leaf k : Option Nat) = none from
      NatMap.findAux_leaf natMapFuel k] at hfind
    exact Option.noConfusion hfind

/-- The dictionary-full branch of `encStep`: on a table miss with
`next_code = 4096` the encoder emits the pending `ib_code`, then emits the
clear code `1 <<< min_code_size`, resets `next_code` to `eoi_code + 1`,
the code width to `min_code_size + 1` and the table to empty, and loads
the current symbol into `ib_code` — all before any further input symbol is
processed. -/
theorem encStep_clear (m : Nat) (st : EncSt) (kraw : Nat)
    (hmiss : st.code_table.find (st.ib_code <<< 8 ||| (kraw &&& (1 <<< m - 1))) = none)
    (hfull : st.next_code = 4096) :
    encStep m st kraw =
      { emit_code
          (emitLoop (st.cur_shift + st.cur_code_size) 8
            { st with cur := st.cur ||| (st.ib_code <<< st.cur_shift),
                      cur_shift := st.cur_shift + st.cur_code_size })
          (1 <<< m) with
        next_code := (1 <<< m) + 1 + 1,
        cur_code_size := m + 1,
        code_table := NatMap.leaf,
        ib_code := kraw &&& ((1 <<< m) - 1) } := by
  unfold encStep
  dsimp only
  rw [hmiss]
  dsimp only
  rw [if_pos (show (emitLoop (st.cur_shift + st.cur_code_size) 8
      { st with cur := st.cur ||| (st.ib_code <<< st.cur_shift),
                cur_shift := st.cur_shift + st.cur_code_size }).next_code = 4096 by
    rw [emitLoop_next_code]
    exact hfull)]

/-- A full-table encoder state (a miss at `next_code = 4096`) used to
exercise the clear branch concretely. -/
def c2FullSt : EncSt :=
  { out := [], p := 0, cur_subblock := 0, next_code := 4096, cur_code_size := 12,
    cur_shift := 0, cur := 0, ib_code := 7, code_table := .leaf }

set_option maxRecDepth 1000000 in
/-- **C2 counterexample**: the claim asserts that the regression input — a
single 4840-pixel row cycling through 8 distinct indices, encoded with
`minCodeSize = 3` — forces the dictionary past 4096 entries so that a Clear
Code is emitted mid-stream.  In fact on that input every state of the
encoder's main loop has `next_code < 4096` (so the `next_code === 4096`
clear branch of lines 353-369 is never taken), and the final `next_code`
is only 284: the dictionary never comes close to full. -/
theorem C2_counterexample :
    noClearFold 3 (encInit 0 3 c2Stream) c2Stream.tail ∧
    (c2Stream.tail.foldl (encStep 3) (encInit 0 3 c2Stream)).next_code = 284 ∧
    (284 : Nat) < 4096 :=
  ⟨c2_noClear_enc, c2_final_next, by decide⟩

set_option maxRecDepth 1000000 in
/-- **C2** (amended; encoder dictionary-full invariant): throughout every
encode with `min_code_size ≤ 8` (the writer's palettes have at most 256
colors) the code table never holds a code value at or above 4096 —
`EncTableBound` holds initially and is preserved by every step; when the
next code to assign would be 4096, the step instead emits the pending
`ib_code` followed by a Clear Code, resets the dictionary to empty and the
bit width to `minCodeSize+1` before processing any further input symbol.
The 4840-pixel regression row cycling through 8 distinct indices does
*not* trigger this mid-stream clear: its dictionary trace stays strictly
below 4096, peaking at `next_code = 284`. -/
theorem C2_dictionary_full :
    (∀ (p m : Nat) (s : List Nat), m ≤ 8 → EncTableBound (encInit p m s)) ∧
    (∀ (m : Nat) (st : EncSt) (k : Nat), m ≤ 8 → EncTableBound st →
      EncTableBound (encStep m st k)) ∧
    (∀ (m : Nat) (st : EncSt) (kraw : Nat),
      st.code_table.find (st.ib_code <<< 8 ||| (kraw &&& (1 <<< m - 1))) = none →
      st.next_code = 4096 →
      encStep m st kraw =
        { emit_code
            (emitLoop (st.cur_shift + st.cur_code_size) 8
              { st with cur := st.cur ||| (st.ib_code <<< st.cur_shift),
                        cur_shift := st.cur_shift + st.cur_code_size })
            (1 <<< m) with
          next_code := (1 <<< m) + 1 + 1,
          cur_code_size := m + 1,
          code_table := NatMap.leaf,
          ib_code := kraw &&& ((1 <<< m) - 1) }) ∧
    noClearFold 3 (encInit 0 3 c2Stream) c2Stream.tail ∧
    (c2Stream.tail.foldl (encStep 3) (encInit 0 3 c2Stream)).next_code = 284 :=
  ⟨fun p m s hm => encInit_bound p m s hm,
   fun m st k hm h => encStep_bound m hm st k h,
   fun m st kraw hmiss hfull => encStep_clear m st kraw hmiss hfull,
   c2_noClear_enc, c2_final_next⟩

set_option maxRecDepth 1000000 in
theorem C2_dictionary_full_witness :
    EncTableBound (encStep 3 (encInit 0 3 c2Stream) 1) ∧
    (encStep 3 c2FullSt 5).code_table = NatMap.leaf ∧
    (encStep 3 c2FullSt 5).next_code = (1 <<< 3) + 1 + 1 :=
  ⟨C2_dictionary_full.2.1 3 (encInit 0 3 c2Stream) 1 (by decide)
      (C2_dictionary_full.1 0 3 c2Stream (by decide)),
   by rw [C2_dictionary_full.2.2.1 3 c2FullSt 5 rfl rfl],
   by rw [C2_dictionary_full.2.2.1 3 c2FullSt 5 rfl rfl]⟩

/-! ## C8: interlace row ordering of the blitter -/

/-- One pixel write of the blit loop (the body of the `index === trans`
branch pair), at byte offset `op`. -/
def writePix (buffer : List Nat) (palette_offset trans : Nat) (bgra : Bool)
    (index op : Nat) (p : List Nat) : List Nat :=
  if index = trans then p
  else
    let r := buffer.getD (palette_offset + index * 3) 0
    let g := buffer.getD (palette_offset + index * 3 + 1) 0
    let b := buffer.getD (palette_offset + index * 3 + 2) 0
    let px0 := if bgra then b else r
    let px2 := if bgra then r else b
    u8set (u8set (u8set (u8set p op px0) (op + 1) g) (op + 2) px2) (op + 3) 255

/-- Write one decoded row left to right starting at byte offset `op`. -/
def writeRow (buffer : List Nat) (palette_offset trans : Nat) (bgra : Bool) :
    List Nat → Nat → List Nat → List Nat
  | [], _, p => p
  | i :: r, op, p =>
      writeRow buffer palette_offset trans bgra r (op + 4)
        (writePix buffer palette_offset trans bgra i op p)

/-- Spec-side row blit: write consecutive `w`-pixel chunks of the stream to
the listed canvas rows (row `ρ` starts at byte `opbeg + ρ * (cw * 4)`). -/
def specBlitRows (buffer : List Nat) (palette_offset trans cw w opbeg : Nat)
    (bgra : Bool) : List Nat → List Nat → List Nat → List Nat
  | [], _, p => p
  | ρ :: R, s, p =>
      specBlitRows buffer palette_offset trans cw w opbeg bgra R (s.drop w)
        (writeRow buffer palette_offset trans bgra (s.take w) (opbeg + ρ * (cw * 4)) p)

/-- The spec's row order: four interlace passes (rows ≡ 0 (mod 8), then
≡ 4 (mod 8), then ≡ 2 (mod 4), then odd), natural order otherwise. -/
def specRows (interlaced : Bool) (h : Nat) : List Nat :=
  if interlaced then
    List.range' 0 ((h + 7) / 8) 8 ++ List.range' 4 ((h + 3) / 8) 8 ++
    List.range' 2 ((h + 1) / 4) 4 ++ List.range' 1 (h / 2) 2
  else List.range h

/-- Spec-side description of both blit functions (given a palette): chunk
the index stream into rows and write them to `specRows` in order. -/
def specBlitFrame (buffer : List Nat) (canvas_width : Nat) (frame : PFrame)
    (index_stream : List Nat) (pixels : List Nat) (bgra : Bool) : List Nat :=
  match frame.palette_offset with
  | none => pixels
  | some palette_offset =>
      specBlitRows buffer palette_offset ((frame.transparent_index).getD 256)
        canvas_width frame.width ((frame.y * canvas_width + frame.x) * 4) bgra
        (specRows frame.interlaced frame.height) index_stream pixels

/-- Processing one full row's worth of pixels with `xleft = r.length`
writes them consecutively and leaves `xleft = 0` with the cursor past the
row; the interlace registers are untouched. -/
theorem blitLoop_run (buf : List Nat) (po tr cw w fs ob oe : Nat) (bgra : Bool) :
    ∀ (r rest : List Nat) (op scan skip : Nat) (p : List Nat),
    blitLoop buf po tr cw w fs ob oe bgra (r ++ rest) op r.length scan skip p =
      blitLoop buf po tr cw w fs ob oe bgra rest (op + 4 * r.length) 0 scan skip
        (writeRow buf po tr bgra r op p) := by
  intro r
  induction r with
  | nil => intro rest op scan skip p; rfl
  | cons i r' ih =>
      intro rest op scan skip p
      conv_lhs => rw [List.cons_append, blitLoop]
      simp only [List.length_cons]
      have hx : (r'.length + 1 = 0) = False := by simp
      simp only [hx, false_and, if_neg not_false, Nat.add_sub_cancel]
      have harith : op + 4 + 4 * r'.length = op + 4 * (r'.length + 1) := by ring
      by_cases hit : i = tr
      · rw [if_pos hit]
        rw [ih, harith]
        simp only [writeRow, writePix, if_pos hit]
      · rw [if_neg hit]
        rw [ih, harith]
        simp only [writeRow, writePix, if_neg hit]

/-- Entering a pixel with `xleft = 0` when the scan-line advance stays
before `opend`: the whole next row is written at `op + scanstride` and the
interlace registers are untouched. -/
theorem blitLoop_row0 (buf : List Nat) (po tr cw w fs ob oe : Nat) (bgra : Bool)
    (r rest : List Nat) (op scan skip : Nat) (p : List Nat)
    (hr : r.length = w) (hw : 0 < w) (hnj : ¬ oe ≤ op + scan) :
    blitLoop buf po tr cw w fs ob oe bgra (r ++ rest) op 0 scan skip p =
      blitLoop buf po tr cw w fs ob oe bgra rest (op + scan + 4 * w) 0 scan skip
        (writeRow buf po tr bgra r (op + scan) p) := by
  cases r with
  | nil => simp at hr; omega
  | cons i r0 =>
      conv_lhs => rw [List.cons_append, blitLoop]
      simp only [eq_self_iff_true, if_true, true_and]
      rw [if_neg hnj, if_neg hnj, if_neg hnj]
      have hr0 : r0.length = w - 1 := by simp at hr; omega
      rw [show w - 1 = r0.length from hr0.symm]
      have harith : op + scan + 4 + 4 * r0.length = op + scan + 4 * w := by
        simp at hr; omega
      by_cases hit : i = tr
      · rw [if_pos hit, blitLoop_run, harith]
        simp only [writeRow, writePix, if_pos hit]
      · rw [if_neg hit, blitLoop_run, harith]
        simp only [writeRow, writePix, if_neg hit]

/-- Entering a pixel with `xleft = 0` when the scan-line advance reaches
`opend`: the cursor jumps to `opbeg + (framewidth + framestride) *
(interlaceskip << 1)`, the scan stride is rebuilt from the current skip and
the skip halves; the whole next row is then written at the jump target. -/
theorem blitLoop_row0_jump (buf : List Nat) (po tr cw w fs ob oe : Nat) (bgra : Bool)
    (r rest : List Nat) (op scan skip : Nat) (p : List Nat)
    (hr : r.length = w) (hw : 0 < w) (hj : oe ≤ op + scan) :
    blitLoop buf po tr cw w fs ob oe bgra (r ++ rest) op 0 scan skip p =
      blitLoop buf po tr cw w fs ob oe bgra rest
        (ob + (w + fs) * (skip <<< 1) + 4 * w) 0
        (fs * 4 + cw * 4 * (skip - 1)) (skip >>> 1)
        (writeRow buf po tr bgra r (ob + (w + fs) * (skip <<< 1)) p) := by
  cases r with
  | nil => simp at hr; omega
  | cons i r0 =>
      conv_lhs => rw [List.cons_append, blitLoop]
      simp only [eq_self_iff_true, if_true, true_and]
      rw [if_pos hj, if_pos hj, if_pos hj]
      have hr0 : r0.length = w - 1 := by simp at hr; omega
      rw [show w - 1 = r0.length from hr0.symm]
      have harith : ob + (w + fs) * (skip <<< 1) + 4 + 4 * r0.length =
          ob + (w + fs) * (skip <<< 1) + 4 * w := by
        simp at hr; omega
      by_cases hit : i = tr
      · rw [if_pos hit, blitLoop_run, harith]
        simp only [writeRow, writePix, if_pos hit]
      · rw [if_neg hit, blitLoop_run, harith]
        simp only [writeRow, writePix, if_neg hit]

/-- The sequence of (frame-relative) rows the blit loop visits after the
current one, given the current row `ρ`, the scan stride in rows `σ` and the
interlace skip `κ` — exactly mirroring the loop's `xleft === 0` logic:
advance by `σ` while that stays inside the frame, otherwise jump to row
`κ / 2` with stride `κ` and halved skip. -/
inductive RowChain (h : Nat) : Nat → Nat → Nat → List Nat → Prop where
  | nil (ρ σ κ : Nat) : RowChain h ρ σ κ []
  | adv (ρ σ κ : Nat) (R : List Nat) : ρ + σ < h → RowChain h (ρ + σ) σ κ R →
      RowChain h ρ σ κ ((ρ + σ) :: R)
  | jump (ρ σ κ : Nat) (R : List Nat) : h ≤ ρ + σ → κ % 2 = 0 → 0 < κ →
      RowChain h (κ / 2) κ (κ / 2) R → RowChain h ρ σ κ ((κ / 2) :: R)

/-- Main correspondence: from a row boundary (cursor just past row `ρ`,
`xleft = 0`), the blit loop writes the remaining stream row by row to the
rows listed by the `RowChain`. -/
theorem blitLoop_chain (buf : List Nat) (po tr cw w fs ob oe h : Nat) (bgra : Bool)
    (hw : 0 < w) (hcw : w + fs = cw) (hoe : oe = ob + h * (cw * 4)) :
    ∀ (R : List Nat) (ρ σ κ : Nat), RowChain h ρ σ κ R → 1 ≤ σ →
    ∀ (s p : List Nat), s.length = R.length * w →
    blitLoop buf po tr cw w fs ob oe bgra s (ob + ρ * (cw * 4) + 4 * w) 0
      (fs * 4 + cw * 4 * (σ - 1)) κ p =
      specBlitRows buf po tr cw w ob bgra R s p := by
  intro R ρ σ κ hch
  induction hch with
  | nil ρ σ κ =>
      intro hσ s p hs
      have hnil : s = [] := List.eq_nil_of_length_eq_zero (by simpa using hs)
      subst hnil
      rfl
  | adv ρ σ κ R hlt hch ih =>
      intro hσ s p hs
      obtain ⟨σ', rfl⟩ : ∃ σ', σ = σ' + 1 := ⟨σ - 1, by omega⟩
      have hlen : (s.take w).length = w := by
        rw [List.length_take]
        simp only [List.length_cons] at hs
        have hwle : w ≤ s.length := by
          rw [hs]
          calc w = 1 * w := (Nat.one_mul w).symm
          _ ≤ (R.length + 1) * w := Nat.mul_le_mul_right w (by omega)
        omega
      have hcw4 : 0 < cw * 4 := by omega
      have hop : ob + ρ * (cw * 4) + 4 * w + (fs * 4 + cw * 4 * (σ' + 1 - 1)) =
          ob + (ρ + (σ' + 1)) * (cw * 4) := by
        simp only [Nat.add_sub_cancel]
        have hexp : (ρ + (σ' + 1)) * (cw * 4) =
            ρ * (cw * 4) + σ' * (cw * 4) + cw * 4 := by ring
        rw [hexp, Nat.mul_comm (cw * 4) σ']
        omega
      have hnj : ¬ oe ≤ ob + ρ * (cw * 4) + 4 * w + (fs * 4 + cw * 4 * (σ' + 1 - 1)) := by
        rw [hop, hoe]
        intro hcon
        have h1 : h * (cw * 4) ≤ (ρ + (σ' + 1)) * (cw * 4) := by omega
        have h2 : h ≤ ρ + (σ' + 1) := Nat.le_of_mul_le_mul_right h1 hcw4
        omega
      conv_lhs => rw [← List.take_append_drop w s]
      rw [blitLoop_row0 buf po tr cw w fs ob oe bgra (s.take w) (s.drop w) _ _ κ p hlen hw hnj]
      rw [hop]
      conv_rhs => rw [specBlitRows]
      exact ih hσ (s.drop w) _ (by
        rw [List.length_drop, hs]
        simp only [List.length_cons]
        rw [Nat.succ_mul]
        omega)
  | jump ρ σ κ R hge heven hκ hch ih =>
      intro hσ s p hs
      obtain ⟨σ', rfl⟩ : ∃ σ', σ = σ' + 1 := ⟨σ - 1, by omega⟩
      have hlen : (s.take w).length = w := by
        rw [List.length_take]
        simp only [List.length_cons] at hs
        have hwle : w ≤ s.length := by
          rw [hs]
          calc w = 1 * w := (Nat.one_mul w).symm
          _ ≤ (R.length + 1) * w := Nat.mul_le_mul_right w (by omega)
        omega
      have hcw4 : 0 < cw * 4 := by omega
      have hop : ob + ρ * (cw * 4) + 4 * w + (fs * 4 + cw * 4 * (σ' + 1 - 1)) =
          ob + (ρ + (σ' + 1)) * (cw * 4) := by
        simp only [Nat.add_sub_cancel]
        have hexp : (ρ + (σ' + 1)) * (cw * 4) =
            ρ * (cw * 4) + σ' * (cw * 4) + cw * 4 := by ring
        rw [hexp, Nat.mul_comm (cw * 4) σ']
        omega
      have hj : oe ≤ ob + ρ * (cw * 4) + 4 * w + (fs * 4 + cw * 4 * (σ' + 1 - 1)) := by
        rw [hop, hoe]
        have h1 : h * (cw * 4) ≤ (ρ + (σ' + 1)) * (cw * 4) :=
          Nat.mul_le_mul_right _ hge
        omega
      conv_lhs => rw [← List.take_append_drop w s]
      rw [blitLoop_row0_jump buf po tr cw w fs ob oe bgra (s.take w) (s.drop w) _ _ κ p hlen hw hj]
      have hjt : ob + (w + fs) * (κ <<< 1) = ob + (κ / 2) * (cw * 4) := by
        have h2 : κ <<< 1 = 4 * (κ / 2) := by
          rw [Nat.shiftLeft_eq, pow_one]
          omega
        rw [hcw, h2]
        ring_nf
      have hsr : κ >>> 1 = κ / 2 := by
        rw [Nat.shiftRight_eq_div_pow, pow_one]
      rw [hjt, hsr]
      conv_rhs => rw [specBlitRows]
      exact ih hκ (s.drop w) _ (by
        rw [List.length_drop, hs]
        simp only [List.length_cons]
        rw [Nat.succ_mul]
        omega)

/-- Entry point: the blit loop on a full `(R.length + 1)`-row stream writes
the first row at `opbeg` and then follows the row chain. -/
theorem blitLoop_entry (buf : List Nat) (po tr cw w fs ob oe h : Nat) (bgra : Bool)
    (hw : 0 < w) (hcw : w + fs = cw) (hoe : oe = ob + h * (cw * 4))
    (R : List Nat) (σ0 : Nat) (hch : RowChain h 0 σ0 8 R) (hσ0 : 1 ≤ σ0)
    (s p : List Nat) (hs : s.length = (R.length + 1) * w) :
    blitLoop buf po tr cw w fs ob oe bgra s ob w (fs * 4 + cw * 4 * (σ0 - 1)) 8 p =
      specBlitRows buf po tr cw w ob bgra (0 :: R) s p := by
  have hlen : (s.take w).length = w := by
    rw [List.length_take]
    have hwle : w ≤ s.length := by
      rw [hs]
      calc w = 1 * w := (Nat.one_mul w).symm
      _ ≤ (R.length + 1) * w := Nat.mul_le_mul_right w (by omega)
    omega
  obtain ⟨r, s2, rfl, hrlen⟩ : ∃ r s2, s = r ++ s2 ∧ r.length = w :=
    ⟨s.take w, s.drop w, (List.take_append_drop w s).symm, hlen⟩
  subst hrlen
  rw [blitLoop_run]
  have hob : ob + 4 * r.length = ob + 0 * (cw * 4) + 4 * r.length := by ring
  rw [hob]
  rw [List.length_append, Nat.succ_mul] at hs
  rw [blitLoop_chain buf po tr cw r.length fs ob oe h bgra hw hcw hoe R 0 σ0 8 hch hσ0 s2 _
    (by omega)]
  conv_rhs => rw [specBlitRows]
  rw [List.take_left, List.drop_left]
  rw [show ob + 0 * (cw * 4) = ob by ring]

/-- A straight run of `n` in-frame advances extends a row chain by an
arithmetic progression. -/
theorem chain_run (h : Nat) : ∀ (n ρ σ κ : Nat) (R : List Nat), 0 < σ →
    ρ + σ * n < h → RowChain h (ρ + σ * n) σ κ R →
    RowChain h ρ σ κ (List.range' (ρ + σ) n σ ++ R) := by
  intro n
  induction n with
  | zero =>
      intro ρ σ κ R hσ hlt hch
      simpa using hch
  | succ n ih =>
      intro ρ σ κ R hσ hlt hch
      have hstep : ρ + σ < h := by
        rw [Nat.mul_succ] at hlt
        have : σ ≤ σ * n + σ := by omega
        omega
      have hch' : RowChain h (ρ + σ) σ κ (List.range' (ρ + σ + σ) n σ ++ R) := by
        apply ih (ρ + σ) σ κ R hσ
        · rw [Nat.mul_succ] at hlt
          omega
        · rw [show ρ + σ + σ * n = ρ + σ * (n + 1) by rw [Nat.mul_succ]; omega]
          exact hch
      have := RowChain.adv ρ σ κ (List.range' (ρ + σ + σ) n σ ++ R) hstep hch'
      simpa [List.range'] using this

theorem range'_cons (s n step : Nat) :
    List.range' s (n + 1) step = s :: List.range' (s + step) n step := rfl

/-- Non-interlaced chain: advance one row at a time through the frame. -/
theorem chain_natural (h : Nat) (hh : 1 ≤ h) :
    RowChain h 0 1 8 (List.range' 1 (h - 1) 1) := by
  have := chain_run h (h - 1) 0 1 8 [] (by omega) (by omega) (RowChain.nil _ _ _)
  simpa using this

theorem rows_natural (h : Nat) (hh : 1 ≤ h) :
    0 :: List.range' 1 (h - 1) 1 = List.range h := by
  obtain ⟨h2, rfl⟩ : ∃ h2, h = h2 + 1 := ⟨h - 1, by omega⟩
  rw [List.range_eq_range', show h2 + 1 - 1 = h2 by omega]
  rfl

/-- Interlaced chain for `h ≥ 5`: the four passes with the jump targets
4, 2, 1 produced by the halving skip. -/
theorem chain_interlaced (h : Nat) (hh : 5 ≤ h) :
    RowChain h 0 8 8
      (List.range' 8 ((h + 7) / 8 - 1) 8 ++
        (4 :: (List.range' 12 ((h + 3) / 8 - 1) 8 ++
          (2 :: (List.range' 6 ((h + 1) / 4 - 1) 4 ++
            (1 :: List.range' 3 (h / 2 - 1) 2)))))) := by
  have c4 : RowChain h 1 2 1 (List.range' 3 (h / 2 - 1) 2) := by
    have := chain_run h (h / 2 - 1) 1 2 1 [] (by omega) (by omega) (RowChain.nil _ _ _)
    simpa using this
  have cj3 : RowChain h (2 + 4 * ((h + 1) / 4 - 1)) 4 2
      (1 :: List.range' 3 (h / 2 - 1) 2) :=
    RowChain.jump _ 4 2 _ (by omega) (by decide) (by decide) c4
  have c34 : RowChain h 2 4 2
      (List.range' 6 ((h + 1) / 4 - 1) 4 ++ (1 :: List.range' 3 (h / 2 - 1) 2)) := by
    have := chain_run h ((h + 1) / 4 - 1) 2 4 2 _ (by omega) (by omega) cj3
    simpa using this
  have cj2 : RowChain h (4 + 8 * ((h + 3) / 8 - 1)) 8 4
      (2 :: (List.range' 6 ((h + 1) / 4 - 1) 4 ++ (1 :: List.range' 3 (h / 2 - 1) 2))) :=
    RowChain.jump _ 8 4 _ (by omega) (by decide) (by decide) c34
  have c234 : RowChain h 4 8 4
      (List.range' 12 ((h + 3) / 8 - 1) 8 ++
        (2 :: (List.range' 6 ((h + 1) / 4 - 1) 4 ++ (1 :: List.range' 3 (h / 2 - 1) 2)))) := by
    have := chain_run h ((h + 3) / 8 - 1) 4 8 4 _ (by omega) (by omega) cj2
    simpa using this
  have cj1 : RowChain h (0 + 8 * ((h + 7) / 8 - 1)) 8 8
      (4 :: (List.range' 12 ((h + 3) / 8 - 1) 8 ++
        (2 :: (List.range' 6 ((h + 1) / 4 - 1) 4 ++ (1 :: List.range' 3 (h / 2 - 1) 2))))) :=
    RowChain.jump _ 8 8 _ (by omega) (by decide) (by decide) c234
  have := chain_run h ((h + 7) / 8 - 1) 0 8 8 _ (by omega) (by omega) cj1
  simpa using this

theorem rows_interlaced (h : Nat) (hh : 5 ≤ h) :
    0 :: (List.range' 8 ((h + 7) / 8 - 1) 8 ++
      (4 :: (List.range' 12 ((h + 3) / 8 - 1) 8 ++
        (2 :: (List.range' 6 ((h + 1) / 4 - 1) 4 ++
          (1 :: List.range' 3 (h / 2 - 1) 2)))))) = specRows true h := by
  rw [specRows, if_pos rfl]
  rw [show (h + 7) / 8 = ((h + 7) / 8 - 1) + 1 by omega, range'_cons]
  rw [show (h + 3) / 8 = ((h + 3) / 8 - 1) + 1 by omega, range'_cons]
  rw [show (h + 1) / 4 = ((h + 1) / 4 - 1) + 1 by omega, range'_cons]
  rw [show h / 2 = (h / 2 - 1) + 1 by omega, range'_cons]
  simp [List.cons_append, List.append_assoc]

theorem rows_interlaced_length (h : Nat) (hh : 5 ≤ h) :
    (List.range' 8 ((h + 7) / 8 - 1) 8 ++
      (4 :: (List.range' 12 ((h + 3) / 8 - 1) 8 ++
        (2 :: (List.range' 6 ((h + 1) / 4 - 1) 4 ++
          (1 :: List.range' 3 (h / 2 - 1) 2)))))).length = h - 1 := by
  simp [List.length_append, List.length_range']
  omega

/-- Generic form over the BGRA flag: the shared pixel loop, started the way
both blit functions start it, realises the spec's row order whenever the
interlaced height is 1 or at least 5 (non-interlaced heights are
unrestricted). -/
theorem blitLoop_frame (buffer : List Nat) (po cw : Nat) (frame : PFrame)
    (stream pixels : List Nat) (bgra : Bool)
    (hw : 0 < frame.width) (hwle : frame.width ≤ cw)
    (hh : 0 < frame.height)
    (hlen : stream.length = frame.width * frame.height)
    (hint : frame.interlaced = true → frame.height = 1 ∨ 5 ≤ frame.height) :
    blitLoop buffer po ((frame.transparent_index).getD 256) cw frame.width
      (cw - frame.width) ((frame.y * cw + frame.x) * 4)
      (((frame.y + frame.height) * cw + frame.x) * 4) bgra stream
      ((frame.y * cw + frame.x) * 4) frame.width
      ((cw - frame.width) * 4 + (if frame.interlaced then cw * 4 * 7 else 0)) 8 pixels =
      specBlitRows buffer po ((frame.transparent_index).getD 256) cw frame.width
        ((frame.y * cw + frame.x) * 4) bgra
        (specRows frame.interlaced frame.height) stream pixels := by
  have hcw : frame.width + (cw - frame.width) = cw := by omega
  have hoe : ((frame.y + frame.height) * cw + frame.x) * 4 =
      (frame.y * cw + frame.x) * 4 + frame.height * (cw * 4) := by ring
  cases hb : frame.interlaced with
  | false =>
      rw [if_neg (by simp)]
      rw [show (cw - frame.width) * 4 + 0 =
        (cw - frame.width) * 4 + cw * 4 * (1 - 1) by simp]
      rw [blitLoop_entry buffer po ((frame.transparent_index).getD 256) cw frame.width
        (cw - frame.width) ((frame.y * cw + frame.x) * 4)
        (((frame.y + frame.height) * cw + frame.x) * 4) frame.height bgra hw hcw hoe
        (List.range' 1 (frame.height - 1) 1) 1 (chain_natural frame.height hh) (by omega)
        stream pixels
        (by
          rw [hlen, List.length_range',
            show frame.height - 1 + 1 = frame.height from by omega]
          ring)]
      rw [rows_natural frame.height hh]
      rw [specRows, if_neg (by simp)]
  | true =>
      rw [if_pos rfl]
      rcases hint hb with h1 | h5
      · rw [h1] at hlen hh ⊢
        rw [show (cw - frame.width) * 4 + cw * 4 * 7 =
          (cw - frame.width) * 4 + cw * 4 * (8 - 1) by norm_num]
        rw [blitLoop_entry buffer po ((frame.transparent_index).getD 256) cw frame.width
          (cw - frame.width) ((frame.y * cw + frame.x) * 4)
          (((frame.y + 1) * cw + frame.x) * 4) 1 bgra hw hcw (by ring)
          [] 8 (RowChain.nil _ _ _) (by omega) stream pixels
          (by rw [hlen]; simp)]
        rw [show (0 : Nat) :: ([] : List Nat) = specRows true 1 from rfl]
      · rw [show (cw - frame.width) * 4 + cw * 4 * 7 =
          (cw - frame.width) * 4 + cw * 4 * (8 - 1) by norm_num]
        rw [blitLoop_entry buffer po ((frame.transparent_index).getD 256) cw frame.width
          (cw - frame.width) ((frame.y * cw + frame.x) * 4)
          (((frame.y + frame.height) * cw + frame.x) * 4) frame.height bgra hw hcw hoe
          (List.range' 8 ((frame.height + 7) / 8 - 1) 8 ++
            (4 :: (List.range' 12 ((frame.height + 3) / 8 - 1) 8 ++
              (2 :: (List.range' 6 ((frame.height + 1) / 4 - 1) 4 ++
                (1 :: List.range' 3 (frame.height / 2 - 1) 2))))))
          8 (chain_interlaced frame.height h5) (by omega) stream pixels
          (by
            rw [hlen, rows_interlaced_length frame.height h5,
              show frame.height - 1 + 1 = frame.height from by omega]
            ring)]
        rw [rows_interlaced frame.height h5]

/-- A 1×2 interlaced frame with a 2-color palette at buffer offset 0. -/
def c8Frame : PFrame :=
  { x := 0, y := 0, width := 1, height := 2, has_local_palette := false,
    palette_offset := some 0, palette_size := some 2, data_offset := 0,
    data_length := 0, transparent_index := none, interlaced := true,
    delay := 0, disposal := 0 }

def c8Buf : List Nat := [10, 20, 30, 11, 21, 31]

/-- **C8 counterexample**: the claim says every interlaced frame's rows are
written in the four passes, which for a 1×2 interlaced frame puts stream
row 1 on canvas row 1 (pass 4).  The code instead jumps the cursor to
`opbeg + width*16` (canvas row 4) after pass 1 without re-checking `opend`,
so on a 1×2 canvas the write lands past the pixel buffer and is dropped:
row 1 keeps its old contents (sentinel 7) instead of palette color 1. -/
theorem C8_counterexample :
    blitFrameRGBA c8Buf 1 c8Frame [0, 1] (List.replicate 8 7) =
      .ok [10, 20, 30, 255, 7, 7, 7, 7] ∧
    specBlitFrame c8Buf 1 c8Frame [0, 1] (List.replicate 8 7) false =
      [10, 20, 30, 255, 11, 21, 31, 255] ∧
    ([10, 20, 30, 255, 7, 7, 7, 7] : List Nat) ≠ [10, 20, 30, 255, 11, 21, 31, 255] :=
  ⟨by rfl, by rfl, by decide⟩

/-- **C8** (amended; interlace row ordering): for frames that fit the
canvas width with a full index stream, both blit functions write
non-interlaced frames in natural top-to-bottom row order, and interlaced
frames in the four passes (rows ≡ 0 (mod 8), then ≡ 4 (mod 8), then
≡ 2 (mod 4), then odd) — provided the frame has 1 row or at least 5 rows;
for an 8-row interlaced frame the stream rows land on canvas rows
0,4,2,6,1,3,5,7.  (For 2-4-row interlaced frames the pass jump targets lie
outside the frame rectangle and rows are lost or misplaced, as the
counterexample shows.) -/
theorem C8_interlace_row_order (buffer : List Nat) (cw : Nat) (frame : PFrame)
    (stream pixels : List Nat) (po : Nat)
    (hpal : frame.palette_offset = some po)
    (hw : 0 < frame.width) (hwle : frame.width ≤ cw)
    (hh : 0 < frame.height)
    (hlen : stream.length = frame.width * frame.height)
    (hint : frame.interlaced = true → frame.height = 1 ∨ 5 ≤ frame.height) :
    blitFrameRGBA buffer cw frame stream pixels =
      .ok (specBlitFrame buffer cw frame stream pixels false) ∧
    blitFrameBGRA buffer cw frame stream pixels =
      .ok (specBlitFrame buffer cw frame stream pixels true) ∧
    specRows true 8 = [0, 4, 2, 6, 1, 3, 5, 7] := by
  refine ⟨?_, ?_, by decide⟩
  · unfold blitFrameRGBA specBlitFrame
    rw [hpal]
    dsimp only
    exact congrArg Except.ok
      (blitLoop_frame buffer po cw frame stream pixels false hw hwle hh hlen hint)
  · unfold blitFrameBGRA specBlitFrame
    rw [hpal]
    dsimp only
    exact congrArg Except.ok
      (blitLoop_frame buffer po cw frame stream pixels true hw hwle hh hlen hint)

/-- A 1×8 interlaced frame with an 8-color palette at buffer offset 0. -/
def c8Frame8 : PFrame :=
  { x := 0, y := 0, width := 1, height := 8, has_local_palette := false,
    palette_offset := some 0, palette_size := some 8, data_offset := 0,
    data_length := 0, transparent_index := none, interlaced := true,
    delay := 0, disposal := 0 }

def c8Buf8 : List Nat :=
  [0, 0, 0, 1, 1, 1, 2, 2, 2, 3, 3, 3, 4, 4, 4, 5, 5, 5, 6, 6, 6, 7, 7, 7]

theorem C8_interlace_row_order_witness :
    (blitFrameRGBA c8Buf8 1 c8Frame8 [0, 1, 2, 3, 4, 5, 6, 7] (List.replicate 32 9) =
      .ok (specBlitFrame c8Buf8 1 c8Frame8 [0, 1, 2, 3, 4, 5, 6, 7]
        (List.replicate 32 9) false) ∧
    blitFrameBGRA c8Buf8 1 c8Frame8 [0, 1, 2, 3, 4, 5, 6, 7] (List.replicate 32 9) =
      .ok (specBlitFrame c8Buf8 1 c8Frame8 [0, 1, 2, 3, 4, 5, 6, 7]
        (List.replicate 32 9) true) ∧
    specRows true 8 = [0, 4, 2, 6, 1, 3, 5, 7]) :=
  C8_interlace_row_order c8Buf8 1 c8Frame8 [0, 1, 2, 3, 4, 5, 6, 7]
    (List.replicate 32 9) 0 rfl (by decide) (by decide) (by decide) (by decide)
    (fun _ => Or.inr (by decide))
